import Mathlib

/-!
Verification of the wasm-go WebAssembly interpreter core against its
natural-language specification.

The Go sources are shallowly embedded: Go machine integers become `Int`/`Nat`
with explicit wrapping modulo `2^w`, Go byte slices become `List Nat` (each
element a byte value), fallible Go functions become `Except`, and the
interpreter's dispatch loop becomes a fuel-indexed `run` function over an
explicit `State`.  Go `panic` (nil dereference, slice index out of range) is a
distinct outcome from a returned `error`, mirrored by `StepResult.runtimePanic`
versus `StepResult.trap`.
-/

namespace WasmGo

/-! ## Two's-complement helpers -/

/-- Unsigned residue of an integer modulo `2^w` (the bit pattern of a Go
signed integer of width `w`, e.g. `uint32(x)` for `w = 32`). -/
def toUnsigned (w : Nat) (x : Int) : Nat := (x % ((2:Int)^w)).toNat

/-- Signed reading of a `w`-bit pattern (two's complement). -/
def toSigned (w : Nat) (n : Nat) : Int :=
  if n % 2^w < 2^(w-1) then ((n % 2^w : Nat) : Int) else ((n % 2^w : Nat) : Int) - (2:Int)^w

/-- Wrap an integer into the signed 32-bit range, as Go `int32` conversion does. -/
def wrap32 (x : Int) : Int := toSigned 32 (toUnsigned 32 x)

/-- Wrap an integer into the signed 64-bit range, as Go `int64` conversion does. -/
def wrap64 (x : Int) : Int := toSigned 64 (toUnsigned 64 x)

/-! ## Little-endian byte encoding (Go `encoding/binary` with `binary.LittleEndian`) -/

/-- The `w`-byte little-endian encoding of a natural number (low byte first). -/
def natToLEBytes : Nat → Nat → List Nat
  | 0, _ => []
  | w+1, v => v % 256 :: natToLEBytes w (v / 256)

/-- Read a little-endian byte list back into a natural number.  Each element is
reduced modulo 256 because a Go byte always lies in `0..255`. -/
def leBytesToNat : List Nat → Nat
  | [] => 0
  | b :: bs => b % 256 + 256 * leBytesToNat bs

/-! ## Value types (src/types.go).  The source gives `I32 = 0x70`, `I64 = 0x6f`,
`F32 = 0x7D`, `F64 = 0x7C` (note these coincide with `FuncRef`/`ExternRef`). -/

def I32 : Nat := 0x70
def I64 : Nat := 0x6f
def F32 : Nat := 0x7D
def F64 : Nat := 0x7C

/-! ## Value (src/instance.go).  A tagged byte payload; accessors reinterpret
the bytes via `binary.Read`, which leaves the target zero (hence the accessor
returns 0) when the payload is shorter than the target width. -/

structure Value where
  valType : Nat
  data : List Nat
  deriving Repr, DecidableEq

/-- Go `ValueFromI32`: 4-byte little-endian two's-complement payload, tag `I32`. -/
def ValueFromI32 (v : Int) : Value := ⟨I32, natToLEBytes 4 (toUnsigned 32 v)⟩

/-- Go `ValueFromI64`: 8-byte little-endian two's-complement payload, tag `I64`. -/
def ValueFromI64 (v : Int) : Value := ⟨I64, natToLEBytes 8 (toUnsigned 64 v)⟩

/-- Go `ValueFrom(v, t)` at call sites whose argument is a `uint32`
(e.g. `ValueFrom(v, F32)` in `f32load`). -/
def ValueFromU32 (t : Nat) (v : Nat) : Value := ⟨t, natToLEBytes 4 (v % 2^32)⟩

/-- Go `ValueFrom(v, t)` at call sites whose argument is a `uint64`. -/
def ValueFromU64 (t : Nat) (v : Nat) : Value := ⟨t, natToLEBytes 8 (v % 2^64)⟩

/-- Go `ValueFrom(v, I32)` at the two call sites in `opMemoryGrow.exec` where
the argument is a plain Go `int` (`ValueFrom(-1, I32)` and
`ValueFrom(currentPages, I32)`).  `binary.Write` rejects the non-fixed-size
type `int` with an error that `ValueFrom` ignores, so nothing is written to
the buffer and the resulting `Value` carries an empty payload. -/
def ValueFromGoInt (t : Nat) (_ : Int) : Value := ⟨t, []⟩

/-- Go `Value.I32()`: `binary.Read` of an `int32` from the payload; on a
payload shorter than 4 bytes the read fails and the zero value is returned. -/
def Value.I32 (v : Value) : Int :=
  if v.data.length < 4 then 0 else toSigned 32 (leBytesToNat (v.data.take 4))

/-- Go `Value.I64()`. -/
def Value.I64 (v : Value) : Int :=
  if v.data.length < 8 then 0 else toSigned 64 (leBytesToNat (v.data.take 8))

/-- Go `Value.Bool()`: non-zero test for integer tags; panics on any other
tag (`none` models the panic). -/
def Value.Bool? (v : Value) : Option Bool :=
  if v.valType = WasmGo.I32 then some (v.I32 ≠ 0)
  else if v.valType = WasmGo.I64 then some (v.I64 ≠ 0)
  else none

/-! ### Round-trip lemmas -/

theorem leBytesToNat_natToLEBytes (w v : Nat) :
    leBytesToNat (natToLEBytes w v) = v % 2^(8*w) := by
  induction w generalizing v with
  | zero => simp [natToLEBytes, leBytesToNat, Nat.mod_one]
  | succ w ih =>
    simp only [natToLEBytes, leBytesToNat, ih]
    rw [show 8*(w+1) = 8 + 8*w by ring, pow_add]
    rw [show (2:Nat)^8 = 256 by norm_num, Nat.mod_mul]
    omega

theorem toUnsigned_lt (w : Nat) (x : Int) : toUnsigned w x < 2^w := by
  have h : x % (2:Int)^w < (2:Int)^w := Int.emod_lt_of_pos x (by positivity)
  have h2 : 0 ≤ x % (2:Int)^w := Int.emod_nonneg x (by positivity)
  have hc : (((2:Nat)^w : Nat) : Int) = (2:Int)^w := by push_cast; ring
  simp only [toUnsigned]
  omega

theorem toUnsigned_cast (w : Nat) (x : Int) :
    ((toUnsigned w x : Nat) : Int) = x % (2:Int)^w := by
  simp only [toUnsigned]
  exact Int.toNat_of_nonneg (Int.emod_nonneg x (by positivity))

theorem toSigned32_range (n : Nat) :
    -((2:Int)^31) ≤ toSigned 32 n ∧ toSigned 32 n < (2:Int)^31 := by
  have h1 : n % 2^32 < 2^32 := Nat.mod_lt _ (by norm_num)
  simp only [toSigned]
  norm_num at *
  split <;> omega

theorem toSigned64_range (n : Nat) :
    -((2:Int)^63) ≤ toSigned 64 n ∧ toSigned 64 n < (2:Int)^63 := by
  have h1 : n % 2^64 < 2^64 := Nat.mod_lt _ (by norm_num)
  simp only [toSigned]
  norm_num at *
  split <;> omega

theorem Value.I32_range (v : Value) : -((2:Int)^31) ≤ v.I32 ∧ v.I32 < (2:Int)^31 := by
  unfold Value.I32
  split
  · norm_num
  · exact toSigned32_range _

theorem Value.I64_range (v : Value) : -((2:Int)^63) ≤ v.I64 ∧ v.I64 < (2:Int)^63 := by
  unfold Value.I64
  split
  · norm_num
  · exact toSigned64_range _

theorem toSigned_toUnsigned32 (x : Int)
    (h1 : -((2:Int)^31) ≤ x) (h2 : x < (2:Int)^31) :
    toSigned 32 (toUnsigned 32 x) = x := by
  have hnat : ((toUnsigned 32 x : Nat) : Int) = x % (2:Int)^32 := toUnsigned_cast 32 x
  have hmodsmall : toUnsigned 32 x % 2^32 = toUnsigned 32 x :=
    Nat.mod_eq_of_lt (toUnsigned_lt 32 x)
  have hcases : x % (2:Int)^32 = x ∨ x % (2:Int)^32 = x + 2^32 := by
    rcases le_or_lt 0 x with hx | hx
    · left
      exact Int.emod_eq_of_lt hx (by norm_num at h2 ⊢; omega)
    · right
      have h3 : (x + 2^32) % (2:Int)^32 = x % 2^32 := by
        simpa using @Int.add_mul_emod_self_left x ((2:Int)^32) 1
      rw [← h3]
      exact Int.emod_eq_of_lt (by norm_num at h1 ⊢; omega) (by norm_num at h2 ⊢; omega)
  simp only [toSigned, hmodsmall]
  norm_num at *
  rcases hcases with hc | hc <;> split <;> omega

theorem toSigned_toUnsigned64 (x : Int)
    (h1 : -((2:Int)^63) ≤ x) (h2 : x < (2:Int)^63) :
    toSigned 64 (toUnsigned 64 x) = x := by
  have hnat : ((toUnsigned 64 x : Nat) : Int) = x % (2:Int)^64 := toUnsigned_cast 64 x
  have hmodsmall : toUnsigned 64 x % 2^64 = toUnsigned 64 x :=
    Nat.mod_eq_of_lt (toUnsigned_lt 64 x)
  have hcases : x % (2:Int)^64 = x ∨ x % (2:Int)^64 = x + 2^64 := by
    rcases le_or_lt 0 x with hx | hx
    · left
      exact Int.emod_eq_of_lt hx (by norm_num at h2 ⊢; omega)
    · right
      have h3 : (x + 2^64) % (2:Int)^64 = x % 2^64 := by
        simpa using @Int.add_mul_emod_self_left x ((2:Int)^64) 1
      rw [← h3]
      exact Int.emod_eq_of_lt (by norm_num at h1 ⊢; omega) (by norm_num at h2 ⊢; omega)
  simp only [toSigned, hmodsmall]
  norm_num at *
  rcases hcases with hc | hc <;> split <;> omega

theorem wrap32_of_range (x : Int) (h1 : -((2:Int)^31) ≤ x) (h2 : x < (2:Int)^31) :
    wrap32 x = x :=
  toSigned_toUnsigned32 x h1 h2

theorem wrap64_of_range (x : Int) (h1 : -((2:Int)^63) ≤ x) (h2 : x < (2:Int)^63) :
    wrap64 x = x :=
  toSigned_toUnsigned64 x h1 h2

theorem ValueFromI32_I32 (v : Int) : (ValueFromI32 v).I32 = wrap32 v := by
  have hlen : (natToLEBytes 4 (toUnsigned 32 v)).length = 4 := by
    simp [natToLEBytes]
  have hlt : toUnsigned 32 v < 2^32 := toUnsigned_lt 32 v
  simp only [ValueFromI32, Value.I32, wrap32, hlen]
  norm_num
  rw [List.take_of_length_le (by omega), leBytesToNat_natToLEBytes]
  congr 1
  omega

theorem ValueFromI64_I64 (v : Int) : (ValueFromI64 v).I64 = wrap64 v := by
  have hlen : (natToLEBytes 8 (toUnsigned 64 v)).length = 8 := by
    simp [natToLEBytes]
  have hlt : toUnsigned 64 v < 2^64 := toUnsigned_lt 64 v
  simp only [ValueFromI64, Value.I64, wrap64, hlen]
  norm_num
  rw [List.take_of_length_le (by omega), leBytesToNat_natToLEBytes]
  congr 1
  omega

/-! ## Runtime errors.  The Go code uses `errors.New` / `fmt.Errorf`; each
constructor records one distinct error value, `errMessage` its `Error()` text. -/

inductive Err
  /-- `errOutOfBounds` in src/instance.go. -/
  | outOfBoundsMemoryAccess
  /-- `errIntegerDivideByZero` in src/instr_numeric.go. -/
  | integerDivideByZero
  /-- `errIntegerOverflow` in src/instr_numeric.go. -/
  | integerOverflow
  /-- `fmt.Errorf("unreachable")` in `opUnreachable.exec`. -/
  | unreachable
  /-- `fmt.Errorf("global[%d] is a const value", idx)` in `opGlobalSet.exec`. -/
  | immutableGlobal (idx : Nat)
  /-- `fmt.Errorf("global[%d] and value types do not match ", idx)`. -/
  | globalTypeMismatch (idx : Nat)
  /-- `fmt.Errorf("local variable[%d] not found", idx)` in `opLocalGet.exec`. -/
  | localNotFound (idx : Nat)
  /-- `fmt.Errorf("no label found level: %d", level)` in `br`. -/
  | noLabelFound (level : Nat)
  /-- `fmt.Errorf("no label found when else instr")` in `opElse.exec`. -/
  | noLabelElse
  /-- `fmt.Errorf("no end instruction found")` in `nextEndAddr`. -/
  | noEndFound
  /-- `fmt.Errorf("no else or end instruction found after instr if")`. -/
  | noElseOrEndFound
  /-- `fmt.Errorf("memory page is overflow. max is %d, grow size is %d", toPages, max)`
  in `memInst.grow` (the two format arguments appear in this order in the source). -/
  | memPageOverflow (toPages maxPages : Int)
  deriving Repr, DecidableEq

/-- The `Error()` string of each runtime error, as produced by the Go source. -/
def errMessage : Err → String
  | .outOfBoundsMemoryAccess => "out of bounds memory access"
  | .integerDivideByZero => "integer divide by zero"
  | .integerOverflow => "integer overflow"
  | .unreachable => "unreachable"
  | .immutableGlobal i => "global[" ++ toString i ++ "] is a const value"
  | .globalTypeMismatch i => "global[" ++ toString i ++ "] and value types do not match "
  | .localNotFound i => "local variable[" ++ toString i ++ "] not found"
  | .noLabelFound l => "no label found level: " ++ toString l
  | .noLabelElse => "no label found when else instr"
  | .noEndFound => "no end instruction found"
  | .noElseOrEndFound => "no else or end instruction found after instr if"
  | .memPageOverflow t m =>
      "memory page is overflow. max is " ++ toString t ++ ", grow size is " ++ toString m

/-! ## Limits, memory and global types (src/types.go) -/

/-- Go `limits`: `Min` is a `uint32`; `Max` is an `int32` where `-1` means
"no maximum". -/
structure Limits where
  min : Nat
  max : Int
  deriving Repr, DecidableEq

structure MemType where
  limits : Limits
  deriving Repr, DecidableEq

/-- Go `mutability`: `const_ = 0x00`, `var_ = 0x01`. -/
def constMut : Nat := 0x00
def varMut : Nat := 0x01

structure GlobalType where
  valueType : Nat
  /-- The Go field is named `mut`, which is a Lean keyword. -/
  mutab : Nat
  deriving Repr, DecidableEq

def PAGE_SIZE : Nat := 65536

/-! ## Memory instance (src/instance.go) -/

structure MemInst where
  memType : MemType
  data : List Nat
  deriving Repr, DecidableEq

def MemInst.size (m : MemInst) : Nat := m.data.length

def MemInst.pages (m : MemInst) : Nat := m.size / PAGE_SIZE

/-- Go `memInst.grow`.  On success the Go code allocates a fresh zeroed array
of `toPages*PAGE_SIZE` bytes and copies the old contents in.  (The caller
`opMemoryGrow.exec` operates on a by-value copy of the `memInst` it read from
`store.mems`, so even a successful grow is never visible in the store; that is
modelled at the caller.)  A negative requested size would make Go's `make`
panic; no claim exercises that path. -/
def MemInst.grow (m : MemInst) (n : Int) : Except Err MemInst :=
  let toPages : Int := (m.pages : Int) + n
  if m.memType.limits.max ≥ 0 ∧ toPages > m.memType.limits.max then
    .error (.memPageOverflow toPages m.memType.limits.max)
  else
    let newLen := (toPages * (PAGE_SIZE : Int)).toNat
    .ok { m with data := (m.data ++ List.replicate newLen 0).take newLen }

/-- Go `memInst.load8`: bounds check on a signed 32-bit address, then a
little-endian read of 1 byte. -/
def MemInst.load8 (m : MemInst) (addr _align : Int) : Except Err Nat :=
  if addr < 0 ∨ addr + 1 > (m.data.length : Int) then .error .outOfBoundsMemoryAccess
  else .ok (leBytesToNat ((m.data.drop addr.toNat).take 1))

def MemInst.load16 (m : MemInst) (addr _align : Int) : Except Err Nat :=
  if addr < 0 ∨ addr + 2 > (m.data.length : Int) then .error .outOfBoundsMemoryAccess
  else .ok (leBytesToNat ((m.data.drop addr.toNat).take 2))

def MemInst.load32 (m : MemInst) (addr _align : Int) : Except Err Nat :=
  if addr < 0 ∨ addr + 4 > (m.data.length : Int) then .error .outOfBoundsMemoryAccess
  else .ok (leBytesToNat ((m.data.drop addr.toNat).take 4))

def MemInst.load64 (m : MemInst) (addr _align : Int) : Except Err Nat :=
  if addr < 0 ∨ addr + 8 > (m.data.length : Int) then .error .outOfBoundsMemoryAccess
  else .ok (leBytesToNat ((m.data.drop addr.toNat).take 8))

/-- Go `memInst.store8/16/32/64`: after the bounds check the source executes
`binary.Write(bytes.NewBuffer(m.data[addr:]), binary.LittleEndian, v)`.
`bytes.Buffer.Write` appends after the existing buffer contents; since
`cap(m.data[addr:]) == len(m.data[addr:])` the append reallocates a fresh
array, so the backing `m.data` is never modified and the bytes of `v` are
lost.  The memory is therefore returned unchanged on both branches; only the
(everywhere-discarded) error result distinguishes them. -/
def MemInst.store (m : MemInst) (width : Nat) (addr _align : Int) (_v : Nat) :
    Except Err MemInst :=
  if addr < 0 ∨ addr + (width : Int) > (m.data.length : Int) then
    .error .outOfBoundsMemoryAccess
  else .ok m

def MemInst.store8 (m : MemInst) (addr align : Int) (v : Nat) : Except Err MemInst :=
  m.store 1 addr align v

def MemInst.store16 (m : MemInst) (addr align : Int) (v : Nat) : Except Err MemInst :=
  m.store 2 addr align v

def MemInst.store32 (m : MemInst) (addr align : Int) (v : Nat) : Except Err MemInst :=
  m.store 4 addr align v

def MemInst.store64 (m : MemInst) (addr align : Int) (v : Nat) : Except Err MemInst :=
  m.store 8 addr align v

/-! ## Globals, module instance, store (src/instance.go, src/interpreter.go) -/

structure GlobalInst where
  globalType : GlobalType
  value : Value
  deriving Repr, DecidableEq

/-- The runtime module instance, restricted to the fields the embedded
instructions read (`memAddrs`, `globalAddrs`).  The remaining address arrays
and the export table are not consulted by any embedded operation. -/
structure ModuleInst where
  memAddrs : List Nat
  globalAddrs : List Nat
  deriving Repr, DecidableEq

/-- The store, restricted to the instance kinds the embedded instructions
touch (memories and globals). -/
structure Store where
  mems : List MemInst
  globals : List GlobalInst
  deriving Repr, DecidableEq

/-! ## Numeric instruction bodies (src/instr_numeric.go).

Go `opBin.exec` pops `a` first (the top of the operand stack) and `b` second,
then calls `binFn(a, b)` — so the *first* argument of every binary function
below is the value that was pushed last. -/

/-- Bit length of a natural number (0 for 0). -/
def bitLen (n : Nat) : Nat := if n = 0 then 0 else Nat.log2 n + 1

/-- Number of trailing zero bits, with explicit fuel (Go returns the word
width for input 0, handled at the call sites). -/
def trailingZeros : Nat → Nat → Nat
  | 0, _ => 0
  | fuel+1, n => if n % 2 = 1 then 0 else 1 + trailingZeros fuel (n / 2)

/-- Population count. -/
def popCount (n : Nat) : Nat :=
  if h : n = 0 then 0 else n % 2 + popCount (n / 2)
decreasing_by exact Nat.div_lt_self (Nat.pos_of_ne_zero h) (by norm_num)

/-- Go `numericBool`: `ValueFrom(int32 1/0, I32)`. -/
def numericBool (b : Bool) : Value := ValueFromI32 (if b then 1 else 0)

/-- Go `i32Clz` via `bits.LeadingZeros32(uint32(v.I32()))`. -/
def i32Clz (v : Value) : Value := ValueFromI32 ((32 - bitLen (toUnsigned 32 v.I32) : Nat) : Int)

def i64Clz (v : Value) : Value := ValueFromI64 ((64 - bitLen (toUnsigned 64 v.I64) : Nat) : Int)

/-- Go `i32Ctz` via `bits.TrailingZeros32` (which returns 32 for input 0). -/
def i32Ctz (v : Value) : Value :=
  let u := toUnsigned 32 v.I32
  ValueFromI32 ((if u = 0 then 32 else trailingZeros 32 u : Nat) : Int)

def i64Ctz (v : Value) : Value :=
  let u := toUnsigned 64 v.I64
  ValueFromI64 ((if u = 0 then 64 else trailingZeros 64 u : Nat) : Int)

def i32Popcnt (v : Value) : Value := ValueFromI32 ((popCount (toUnsigned 32 v.I32) : Nat) : Int)

def i64Popcnt (v : Value) : Value := ValueFromI64 ((popCount (toUnsigned 64 v.I64) : Nat) : Int)

/-- Go `extendS8_32`: `v << 24 >> 24` on `int32`, i.e. sign-extension of the
low 8 bits. -/
def extendS8_32 (v : Int) : Int := toSigned 8 (toUnsigned 8 v)

def extendS8_64 (v : Int) : Int := toSigned 8 (toUnsigned 8 v)

def extendS16_32 (v : Int) : Int := toSigned 16 (toUnsigned 16 v)

def extendS16_64 (v : Int) : Int := toSigned 16 (toUnsigned 16 v)

def extendS32_64 (v : Int) : Int := toSigned 32 (toUnsigned 32 v)

def i32Extend8S (v : Value) : Value := ValueFromI32 (extendS8_32 v.I32)
def i32Extend16S (v : Value) : Value := ValueFromI32 (extendS16_32 v.I32)
def i64Extend8S (v : Value) : Value := ValueFromI64 (extendS8_64 v.I64)
def i64Extend16S (v : Value) : Value := ValueFromI64 (extendS16_64 v.I64)
def i64Extend32S (v : Value) : Value := ValueFromI64 (extendS32_64 v.I64)

/-- Go `i32Add`: wrap-around `int32` addition (the byte encoding in
`ValueFromI32` performs the reduction modulo `2^32`). -/
def i32Add (a b : Value) : Except Err Value := .ok (ValueFromI32 (a.I32 + b.I32))

def i64Add (a b : Value) : Except Err Value := .ok (ValueFromI64 (a.I64 + b.I64))

def i32Sub (a b : Value) : Except Err Value := .ok (ValueFromI32 (a.I32 - b.I32))

def i64Sub (a b : Value) : Except Err Value := .ok (ValueFromI64 (a.I64 - b.I64))

def i32Mul (a b : Value) : Except Err Value := .ok (ValueFromI32 (a.I32 * b.I32))

def i64Mul (a b : Value) : Except Err Value := .ok (ValueFromI64 (a.I64 * b.I64))

/-- Go `i32DivU`: `uint32(aI32) / uint32(bI32)` after the zero check;
the result is pushed through `ValueFrom(uint32, I32)`. -/
def i32DivU (a b : Value) : Except Err Value :=
  if b.I32 = 0 then .error .integerDivideByZero
  else .ok (ValueFromU32 I32 (toUnsigned 32 a.I32 / toUnsigned 32 b.I32))

/-- Go `i32DivS`: traps on a zero divisor and on `MinInt32 / -1`; otherwise
Go `/` is truncated (toward-zero) division, `Int.tdiv`. -/
def i32DivS (a b : Value) : Except Err Value :=
  if b.I32 = 0 then .error .integerDivideByZero
  else if a.I32 = -((2:Int)^31) ∧ b.I32 = -1 then .error .integerOverflow
  else .ok (ValueFromI32 (Int.tdiv a.I32 b.I32))

def i64DivU (a b : Value) : Except Err Value :=
  if b.I64 = 0 then .error .integerDivideByZero
  else .ok (ValueFromU64 I64 (toUnsigned 64 a.I64 / toUnsigned 64 b.I64))

def i64DivS (a b : Value) : Except Err Value :=
  if b.I64 = 0 then .error .integerDivideByZero
  else if a.I64 = -((2:Int)^63) ∧ b.I64 = -1 then .error .integerOverflow
  else .ok (ValueFromI64 (Int.tdiv a.I64 b.I64))

def i32RemU (a b : Value) : Except Err Value :=
  if b.I32 = 0 then .error .integerDivideByZero
  else .ok (ValueFromU32 I32 (toUnsigned 32 a.I32 % toUnsigned 32 b.I32))

/-- Go `i32RemS`: Go `%` is truncated remainder, `Int.tmod` (in particular
`MinInt32 % -1 = 0` in Go, without any trap). -/
def i32RemS (a b : Value) : Except Err Value :=
  if b.I32 = 0 then .error .integerDivideByZero
  else .ok (ValueFromI32 (Int.tmod a.I32 b.I32))

def i64RemU (a b : Value) : Except Err Value :=
  if b.I64 = 0 then .error .integerDivideByZero
  else .ok (ValueFromU64 I64 (toUnsigned 64 a.I64 % toUnsigned 64 b.I64))

def i64RemS (a b : Value) : Except Err Value :=
  if b.I64 = 0 then .error .integerDivideByZero
  else .ok (ValueFromI64 (Int.tmod a.I64 b.I64))

def i32And (a b : Value) : Except Err Value :=
  .ok (ValueFromU32 I32 (toUnsigned 32 a.I32 &&& toUnsigned 32 b.I32))

def i64And (a b : Value) : Except Err Value :=
  .ok (ValueFromU64 I64 (toUnsigned 64 a.I64 &&& toUnsigned 64 b.I64))

def i32Or (a b : Value) : Except Err Value :=
  .ok (ValueFromU32 I32 (toUnsigned 32 a.I32 ||| toUnsigned 32 b.I32))

def i64Or (a b : Value) : Except Err Value :=
  .ok (ValueFromU64 I64 (toUnsigned 64 a.I64 ||| toUnsigned 64 b.I64))

def i32Xor (a b : Value) : Except Err Value :=
  .ok (ValueFromU32 I32 (toUnsigned 32 a.I32 ^^^ toUnsigned 32 b.I32))

def i64Xor (a b : Value) : Except Err Value :=
  .ok (ValueFromU64 I64 (toUnsigned 64 a.I64 ^^^ toUnsigned 64 b.I64))

/-- Go `i32Shl`: `a.I32() << (uint32(b.I32()) % 32)`; a left shift by `s` is
multiplication by `2^s`, wrapped by the 32-bit encoding. -/
def i32Shl (a b : Value) : Except Err Value :=
  .ok (ValueFromI32 (a.I32 * (2:Int) ^ (toUnsigned 32 b.I32 % 32)))

def i64Shl (a b : Value) : Except Err Value :=
  .ok (ValueFromI64 (a.I64 * (2:Int) ^ (toUnsigned 64 b.I64 % 64)))

/-- Go `i32ShrS`: arithmetic (sign-propagating) right shift of `int32`,
which is floor division by `2^s`. -/
def i32ShrS (a b : Value) : Except Err Value :=
  .ok (ValueFromI32 (Int.fdiv a.I32 ((2:Int) ^ (toUnsigned 32 b.I32 % 32))))

def i64ShrS (a b : Value) : Except Err Value :=
  .ok (ValueFromI64 (Int.fdiv a.I64 ((2:Int) ^ (toUnsigned 64 b.I64 % 64))))

def i32ShrU (a b : Value) : Except Err Value :=
  .ok (ValueFromU32 I32 (toUnsigned 32 a.I32 >>> (toUnsigned 32 b.I32 % 32)))

def i64ShrU (a b : Value) : Except Err Value :=
  .ok (ValueFromU64 I64 (toUnsigned 64 a.I64 >>> (toUnsigned 64 b.I64 % 64)))

/-- Go `bits.RotateLeft32(x, k)`: the effective shift is `uint(k) & 31`,
i.e. `k` reduced modulo 32 (also for negative `k`). -/
def rotateLeft32 (x : Nat) (k : Int) : Nat :=
  let s := (k % (32:Int)).toNat
  ((x <<< s) ||| (x >>> (32 - s))) % 2^32

def rotateLeft64 (x : Nat) (k : Int) : Nat :=
  let s := (k % (64:Int)).toNat
  ((x <<< s) ||| (x >>> (64 - s))) % 2^64

/-- Go `rotateRight32` (src/instr_numeric.go): `x>>s | x<<(32-s)` with
`s = uint(k) & 31`. -/
def rotateRight32 (x : Nat) (k : Int) : Nat :=
  let s := (k % (32:Int)).toNat
  ((x >>> s) ||| (x <<< (32 - s))) % 2^32

def rotateRight64 (x : Nat) (k : Int) : Nat :=
  let s := (k % (64:Int)).toNat
  ((x >>> s) ||| (x <<< (64 - s))) % 2^64

def i32RotL (a b : Value) : Except Err Value :=
  .ok (ValueFromU32 I32 (rotateLeft32 (toUnsigned 32 a.I32) b.I32))

def i64RotL (a b : Value) : Except Err Value :=
  .ok (ValueFromU64 I64 (rotateLeft64 (toUnsigned 64 a.I64) b.I64))

def i32RotR (a b : Value) : Except Err Value :=
  .ok (ValueFromU32 I32 (rotateRight32 (toUnsigned 32 a.I32) b.I32))

def i64RotR (a b : Value) : Except Err Value :=
  .ok (ValueFromU64 I64 (rotateRight64 (toUnsigned 64 a.I64) b.I64))

/-! Relational and test bodies (integer family). -/

def i32Eq (a b : Value) : Bool := a.I32 = b.I32
def i64Eq (a b : Value) : Bool := a.I64 = b.I64
def i32Ne (a b : Value) : Bool := a.I32 ≠ b.I32
def i64Ne (a b : Value) : Bool := a.I64 ≠ b.I64
def i32LtS (a b : Value) : Bool := a.I32 < b.I32
def i64LtS (a b : Value) : Bool := a.I64 < b.I64
def i32LtU (a b : Value) : Bool := toUnsigned 32 a.I32 < toUnsigned 32 b.I32
def i64LtU (a b : Value) : Bool := toUnsigned 64 a.I64 < toUnsigned 64 b.I64
def i32GtS (a b : Value) : Bool := a.I32 > b.I32
def i64GtS (a b : Value) : Bool := a.I64 > b.I64
def i32GtU (a b : Value) : Bool := toUnsigned 32 a.I32 > toUnsigned 32 b.I32
def i64GtU (a b : Value) : Bool := toUnsigned 64 a.I64 > toUnsigned 64 b.I64
def i32LeS (a b : Value) : Bool := a.I32 ≤ b.I32
def i64LeS (a b : Value) : Bool := a.I64 ≤ b.I64
def i32LeU (a b : Value) : Bool := toUnsigned 32 a.I32 ≤ toUnsigned 32 b.I32
def i64LeU (a b : Value) : Bool := toUnsigned 64 a.I64 ≤ toUnsigned 64 b.I64
def i32GeS (a b : Value) : Bool := a.I32 ≥ b.I32
def i64GeS (a b : Value) : Bool := a.I64 ≥ b.I64
def i32GeU (a b : Value) : Bool := toUnsigned 32 a.I32 ≥ toUnsigned 32 b.I32
def i64GeU (a b : Value) : Bool := toUnsigned 64 a.I64 ≥ toUnsigned 64 b.I64

def i32Eqz (v : Value) : Bool := v.I32 = 0
def i64Eqz (v : Value) : Bool := v.I64 = 0

/-! ## Memory load bodies (src/instr_memory.go).

Each Go load helper calls a `memInst.loadN` accessor and wraps the result;
on error `opLoad.exec` discards the (zero) value and returns the error. -/

def i32load (m : MemInst) (addr align : Int) : Except Err Value :=
  (m.load32 addr align).map fun v => ValueFromI32 (toSigned 32 v)

def i64load (m : MemInst) (addr align : Int) : Except Err Value :=
  (m.load64 addr align).map fun v => ValueFromI64 (toSigned 64 v)

def f32load (m : MemInst) (addr align : Int) : Except Err Value :=
  (m.load32 addr align).map fun v => ValueFromU32 F32 v

def f64load (m : MemInst) (addr align : Int) : Except Err Value :=
  (m.load64 addr align).map fun v => ValueFromU64 F64 v

def i32load8S (m : MemInst) (addr align : Int) : Except Err Value :=
  (m.load8 addr align).map fun v => ValueFromI32 (extendS8_32 (v : Int))

def i32load8U (m : MemInst) (addr align : Int) : Except Err Value :=
  (m.load8 addr align).map fun v => ValueFromI32 ((v : Int))

def i32load16S (m : MemInst) (addr align : Int) : Except Err Value :=
  (m.load16 addr align).map fun v => ValueFromI32 (extendS16_32 (v : Int))

def i32load16U (m : MemInst) (addr align : Int) : Except Err Value :=
  (m.load16 addr align).map fun v => ValueFromI32 ((v : Int))

def i64Load8S (m : MemInst) (addr align : Int) : Except Err Value :=
  (m.load8 addr align).map fun v => ValueFromI64 (extendS8_64 (v : Int))

def i64Load8U (m : MemInst) (addr align : Int) : Except Err Value :=
  (m.load8 addr align).map fun v => ValueFromI64 ((v : Int))

def i64load16S (m : MemInst) (addr align : Int) : Except Err Value :=
  (m.load16 addr align).map fun v => ValueFromI64 (extendS16_64 (v : Int))

def i64load16U (m : MemInst) (addr align : Int) : Except Err Value :=
  (m.load16 addr align).map fun v => ValueFromI64 ((v : Int))

def i64load32S (m : MemInst) (addr align : Int) : Except Err Value :=
  (m.load32 addr align).map fun v => ValueFromI64 (extendS32_64 (v : Int))

def i64load32U (m : MemInst) (addr align : Int) : Except Err Value :=
  (m.load32 addr align).map fun v => ValueFromI64 ((v : Int))

/-! ## Memory store bodies (src/instr_memory.go).

Each Go store helper calls a `memInst.storeN` accessor, whose write is lost
(see `MemInst.store`) and whose error result the helper discards, so every
store body returns the memory unchanged. -/

def i32store (m : MemInst) (addr align : Int) (v : Value) : MemInst :=
  match m.store32 addr align (toUnsigned 32 v.I32) with
  | .ok m' => m'
  | .error _ => m

def i64store (m : MemInst) (addr align : Int) (v : Value) : MemInst :=
  match m.store64 addr align (toUnsigned 64 v.I64) with
  | .ok m' => m'
  | .error _ => m

/-- Go `f32store` converts `uint32(v.F32())` — a floating-point conversion
that is not modelled; the converted number is irrelevant because `store32`
never writes it. -/
def f32store (m : MemInst) (addr align : Int) (_v : Value) : MemInst :=
  match m.store32 addr align 0 with
  | .ok m' => m'
  | .error _ => m

def f64store (m : MemInst) (addr align : Int) (_v : Value) : MemInst :=
  match m.store64 addr align 0 with
  | .ok m' => m'
  | .error _ => m

def i32store8 (m : MemInst) (addr align : Int) (v : Value) : MemInst :=
  match m.store8 addr align (toUnsigned 8 v.I32) with
  | .ok m' => m'
  | .error _ => m

def i32store16 (m : MemInst) (addr align : Int) (v : Value) : MemInst :=
  match m.store16 addr align (toUnsigned 16 v.I32) with
  | .ok m' => m'
  | .error _ => m

def i64store8 (m : MemInst) (addr align : Int) (v : Value) : MemInst :=
  match m.store8 addr align (toUnsigned 8 v.I64) with
  | .ok m' => m'
  | .error _ => m

def i64store16 (m : MemInst) (addr align : Int) (v : Value) : MemInst :=
  match m.store16 addr align (toUnsigned 16 v.I64) with
  | .ok m' => m'
  | .error _ => m

def i64store32 (m : MemInst) (addr align : Int) (v : Value) : MemInst :=
  match m.store32 addr align (toUnsigned 32 v.I64) with
  | .ok m' => m'
  | .error _ => m

/-! ## Instruction model.

The Go source represents an instruction as a struct implementing `exec`; the
struct variants carrying a function pointer (`opBin{binFn: i32Add}`, …) are
defunctionalized here into a tag per function, interpreted by the `…FnEval`
maps below.  Floating-point arithmetic bodies receive a tag but no
interpretation (`none`): no claim depends on IEEE-754 evaluation, and a step
reaching one yields the distinguished `StepResult.unmodeledFloat`. -/

inductive TestFn
  | i32Eqz | i64Eqz
  deriving Repr, DecidableEq

inductive RelFn
  | i32Eq | i64Eq | i32Ne | i64Ne
  | i32LtS | i64LtS | i32LtU | i64LtU
  | i32GtS | i64GtS | i32GtU | i64GtU
  | i32LeS | i64LeS | i32LeU | i64LeU
  | i32GeS | i64GeS | i32GeU | i64GeU
  | f32Eq | f32Ne | f32Lt | f32Gt | f32Le | f32Ge
  | f64Eq | f64Ne | f64Lt | f64Gt | f64Le | f64Ge
  deriving Repr, DecidableEq

inductive BinFn
  | i32Add | i64Add | i32Sub | i64Sub | i32Mul | i64Mul
  | i32DivS | i32DivU | i64DivS | i64DivU
  | i32RemS | i32RemU | i64RemS | i64RemU
  | i32And | i64And | i32Or | i64Or | i32Xor | i64Xor
  | i32Shl | i64Shl | i32ShrS | i64ShrS | i32ShrU | i64ShrU
  | i32RotL | i64RotL | i32RotR | i64RotR
  | f32Add | f32Sub | f32Mul | f32Div | f32Min | f32Max | f32Copysign
  | f64Add | f64Sub | f64Mul | f64Div | f64Min | f64Max | f64Copysign
  deriving Repr, DecidableEq

inductive UnFn
  | i32Clz | i64Clz | i32Ctz | i64Ctz | i32Popcnt | i64Popcnt
  | i32Extend8S | i32Extend16S | i64Extend8S | i64Extend16S | i64Extend32S
  | f32Abs | f32Neg | f32Sqrt | f32Ceil | f32Floor | f32Trunc | f32Nearest
  | f64Abs | f64Neg | f64Sqrt | f64Ceil | f64Floor | f64Trunc | f64Nearest
  deriving Repr, DecidableEq

inductive LoadFn
  | i32load | i64load | f32load | f64load
  | i32load8S | i32load8U | i32load16S | i32load16U
  | i64Load8S | i64Load8U | i64load16S | i64load16U
  | i64load32S | i64load32U
  deriving Repr, DecidableEq

inductive StoreFn
  | i32store | i64store | f32store | f64store
  | i32store8 | i32store16 | i64store8 | i64store16 | i64store32
  deriving Repr, DecidableEq

/-- Go `labelKind`: `LabelKindIf = 0`, `LabelKindLoop = 1`, `LabelKindBlock = 2`. -/
inductive LabelKind
  | ifKind | loopKind | blockKind
  deriving Repr, DecidableEq

structure Label where
  kind : LabelKind
  startPc : Nat
  endPc : Nat
  deriving Repr, DecidableEq

/-- Go `block` (the immediate of block/loop/if): `blockTypeEmpty = 0`,
`blockTypeValue = 1` with the value-type byte list. -/
structure Block where
  blockType : Nat
  valType : List Nat
  deriving Repr, DecidableEq

inductive Instr
  | opUnreachable
  | opNop
  | opBlock (b : Block)
  | opLoop (b : Block)
  | opIf (b : Block)
  | opElse
  | opEnd
  | opBr (level : Nat)
  | opBrIf (level : Nat)
  | opBrTable (labelIdxArr : List Nat) (defaultIdx : Nat)
  | opReturn
  | opCall
  | opCallIndirect
  | opLocalGet (localIdx : Nat)
  | opLocalSet (localIdx : Nat)
  | opLocalTee (localIdx : Nat)
  | opGlobalGet (globalIdx : Nat)
  | opGlobalSet (globalIdx : Nat)
  | opConst (val : Value)
  | opTest (f : TestFn)
  | opRel (f : RelFn)
  | opBin (f : BinFn)
  | opUn (f : UnFn)
  | opLoad (align offset : Int) (f : LoadFn)
  | opStore (offset align : Int) (f : StoreFn)
  | opMemorySize
  | opMemoryGrow
  | opMemoryCopy
  | opMemoryFill
  | opSelect
  | opDrop
  deriving Repr, DecidableEq

def testFnEval : TestFn → Value → Bool
  | .i32Eqz => i32Eqz
  | .i64Eqz => i64Eqz

def relFnEval : RelFn → Option (Value → Value → Bool)
  | .i32Eq => some i32Eq
  | .i64Eq => some i64Eq
  | .i32Ne => some i32Ne
  | .i64Ne => some i64Ne
  | .i32LtS => some i32LtS
  | .i64LtS => some i64LtS
  | .i32LtU => some i32LtU
  | .i64LtU => some i64LtU
  | .i32GtS => some i32GtS
  | .i64GtS => some i64GtS
  | .i32GtU => some i32GtU
  | .i64GtU => some i64GtU
  | .i32LeS => some i32LeS
  | .i64LeS => some i64LeS
  | .i32LeU => some i32LeU
  | .i64LeU => some i64LeU
  | .i32GeS => some i32GeS
  | .i64GeS => some i64GeS
  | .i32GeU => some i32GeU
  | .i64GeU => some i64GeU
  | _ => none

def binFnEval : BinFn → Option (Value → Value → Except Err Value)
  | .i32Add => some i32Add
  | .i64Add => some i64Add
  | .i32Sub => some i32Sub
  | .i64Sub => some i64Sub
  | .i32Mul => some i32Mul
  | .i64Mul => some i64Mul
  | .i32DivS => some i32DivS
  | .i32DivU => some i32DivU
  | .i64DivS => some i64DivS
  | .i64DivU => some i64DivU
  | .i32RemS => some i32RemS
  | .i32RemU => some i32RemU
  | .i64RemS => some i64RemS
  | .i64RemU => some i64RemU
  | .i32And => some i32And
  | .i64And => some i64And
  | .i32Or => some i32Or
  | .i64Or => some i64Or
  | .i32Xor => some i32Xor
  | .i64Xor => some i64Xor
  | .i32Shl => some i32Shl
  | .i64Shl => some i64Shl
  | .i32ShrS => some i32ShrS
  | .i64ShrS => some i64ShrS
  | .i32ShrU => some i32ShrU
  | .i64ShrU => some i64ShrU
  | .i32RotL => some i32RotL
  | .i64RotL => some i64RotL
  | .i32RotR => some i32RotR
  | .i64RotR => some i64RotR
  | _ => none

def unFnEval : UnFn → Option (Value → Value)
  | .i32Clz => some i32Clz
  | .i64Clz => some i64Clz
  | .i32Ctz => some i32Ctz
  | .i64Ctz => some i64Ctz
  | .i32Popcnt => some i32Popcnt
  | .i64Popcnt => some i64Popcnt
  | .i32Extend8S => some i32Extend8S
  | .i32Extend16S => some i32Extend16S
  | .i64Extend8S => some i64Extend8S
  | .i64Extend16S => some i64Extend16S
  | .i64Extend32S => some i64Extend32S
  | _ => none

def loadFnEval : LoadFn → MemInst → Int → Int → Except Err Value
  | .i32load => i32load
  | .i64load => i64load
  | .f32load => f32load
  | .f64load => f64load
  | .i32load8S => i32load8S
  | .i32load8U => i32load8U
  | .i32load16S => i32load16S
  | .i32load16U => i32load16U
  | .i64Load8S => i64Load8S
  | .i64Load8U => i64Load8U
  | .i64load16S => i64load16S
  | .i64load16U => i64load16U
  | .i64load32S => i64load32S
  | .i64load32U => i64load32U

def storeFnEval : StoreFn → MemInst → Int → Int → Value → MemInst
  | .i32store => i32store
  | .i64store => i64store
  | .f32store => f32store
  | .f64store => f64store
  | .i32store8 => i32store8
  | .i32store16 => i32store16
  | .i64store8 => i64store8
  | .i64store16 => i64store16
  | .i64store32 => i64store32

/-! ## Frames, state, dispatch (src/interpreter.go) -/

structure Frame where
  pc : Nat
  sp : Nat
  insts : List (Option Instr)
  labels : List Label
  deriving Repr, DecidableEq

structure State where
  frameStack : List Frame
  valueStack : List Value
  store : Store
  mod : ModuleInst
  deriving Repr, DecidableEq

/-- The zero `Value{}` that Go's `stack.Pop` returns (and the callers use,
ignoring the `ok` flag) when the stack is empty. -/
def zeroValue : Value := ⟨0, []⟩

/-- The dummy frame Go's `stack.Peek` hands out (with `ok = false`) on an
empty frame stack; mutations through it are lost. -/
def dummyFrame : Frame := ⟨0, 0, [], []⟩

/-- Write back the mutated top frame (Go mutates it through the pointer
`frameStack.Top()` returned; on an empty stack the pointer targets a dummy
and the mutation is lost). -/
def updTop (fs : List Frame) (f : Frame) : List Frame :=
  if fs.isEmpty then fs else fs.dropLast ++ [f]

/-- Go `stack.Pop` as used by the instruction bodies: the popped element (or
the zero value) together with the shrunk stack. -/
def vpop (vs : List Value) : Value × List Value := (vs.getLastD zeroValue, vs.dropLast)

inductive StepResult
  /-- The instruction's `exec` returned `nil`. -/
  | ok (s : State)
  /-- The instruction's `exec` returned an error (a trap). -/
  | trap (e : Err)
  /-- The Go code panics (nil-instruction dereference, slice index out of
  range) instead of returning an error. -/
  | runtimePanic
  /-- The step reached an IEEE-754 floating-point body that this embedding
  does not interpret. -/
  | unmodeledFloat
  deriving Repr, DecidableEq

/-- Go `nextEndAddr`'s scan loop, from absolute position `pc` over the
remaining instructions.  Faithful to the source's `switch instr.(type)`:
the `case *opIf:` and `case *opLoop:` arms are empty, so only a nested
`opBlock` increments the nesting depth.  A `nil` instruction matches no arm. -/
def scanEnd (depth pc : Nat) : List (Option Instr) → Except Err Nat
  | [] => .error .noEndFound
  | i :: rest =>
    match i with
    | some (.opBlock _) => scanEnd (depth + 1) (pc + 1) rest
    | some .opEnd => if depth = 0 then .ok pc else scanEnd (depth - 1) (pc + 1) rest
    | _ => scanEnd depth (pc + 1) rest

def nextEndAddr (pc : Nat) (insts : List (Option Instr)) : Except Err Nat :=
  scanEnd 0 pc (insts.drop pc)

/-- Go `nextElseOrEndAddr`'s scan loop: `opIf` increments the depth, `opElse`
returns at depth 0 (and is otherwise ignored, without decrementing),
`opEnd` returns at depth 0 or decrements. -/
def scanElseOrEnd (depth pc : Nat) : List (Option Instr) → Except Err Nat
  | [] => .error .noElseOrEndFound
  | i :: rest =>
    match i with
    | some (.opIf _) => scanElseOrEnd (depth + 1) (pc + 1) rest
    | some .opElse =>
        if depth = 0 then .ok pc else scanElseOrEnd depth (pc + 1) rest
    | some .opEnd =>
        if depth = 0 then .ok pc else scanElseOrEnd (depth - 1) (pc + 1) rest
    | _ => scanElseOrEnd depth (pc + 1) rest

def nextElseOrEndAddr (pc : Nat) (insts : List (Option Instr)) : Except Err Nat :=
  scanElseOrEnd 0 pc (insts.drop pc)

inductive BrResult
  | ok (pc : Nat)
  | err (e : Err)
  /-- `labels.Peek(level)` indexes `inner[len-1-level]`, which panics when the
  stack is non-empty but shallower than `level`. -/
  | panics
  deriving Repr, DecidableEq

/-- Go `br` (src/instr_control.go): resolve the `level`-th label from the top
and compute the jump target — `startPc` for a loop label, `endPc` otherwise.
The label stack itself is left untouched (the source only `Peek`s). -/
def brTarget (labels : List Label) (level : Nat) : BrResult :=
  if labels.isEmpty then .err (.noLabelFound level)
  else if h : level < labels.length then
    let lab := labels.get ⟨labels.length - 1 - level, by omega⟩
    .ok (if lab.kind = .loopKind then lab.startPc else lab.endPc)
  else .panics

/-- Fetch the default memory instance the way the instruction bodies do:
`store.mems[frame.mod.defaultMemAddr()]`, where `defaultMemAddr` reads
`memAddrs[0]`.  Go panics when either index is out of range. -/
def withDefaultMem (s : State) (k : Nat → MemInst → StepResult) : StepResult :=
  match s.mod.memAddrs with
  | [] => .runtimePanic
  | a :: _ =>
    if h : a < s.store.mems.length then k a (s.store.mems.get ⟨a, h⟩)
    else .runtimePanic

/-- Replace the top frame of `s` by `fr` (no-op on an empty frame stack,
where Go's mutation through the dummy pointer is lost). -/
def withTopFrame (s : State) (fr : Frame) : State :=
  { s with frameStack := updTop s.frameStack fr }

/-- One instruction's `exec` (the per-variant `exec` methods of
src/instr_control.go, src/instr_memory.go, src/instr_numeric.go,
src/instr_variable.go, src/instr_parametric.go). -/
def execInstr (ins : Instr) (s : State) : StepResult :=
  match ins with
  | .opUnreachable => .trap .unreachable
  | .opNop =>
      -- `opNop.exec` returns nil without calling `frame.NextStep()`.
      .ok s
  | .opBlock _ =>
      let fr := s.frameStack.getLastD dummyFrame
      match nextEndAddr (fr.pc + 1) fr.insts with
      | .error e => .trap e
      | .ok nextPc =>
          let fr2 := { fr with labels := fr.labels ++ [(⟨.blockKind, fr.pc, nextPc⟩ : Label)], pc := fr.pc + 1 }
          .ok (withTopFrame s fr2)
  | .opLoop _ =>
      -- `opLoop.exec` pushes its label but never calls `frame.NextStep()`.
      let fr := s.frameStack.getLastD dummyFrame
      match nextEndAddr (fr.pc + 1) fr.insts with
      | .error e => .trap e
      | .ok nextPc =>
          let fr2 := { fr with labels := fr.labels ++ [(⟨.loopKind, fr.pc, nextPc⟩ : Label)] }
          .ok (withTopFrame s fr2)
  | .opIf _ =>
      let (cond, vs) := vpop s.valueStack
      let fr := s.frameStack.getLastD dummyFrame
      match nextEndAddr (fr.pc + 1) fr.insts with
      | .error e => .trap e
      | .ok nextPc =>
          match cond.Bool? with
          | none => .runtimePanic
          | some cb =>
              if cb then
                -- condition true: push the label; `frame.pc` is left unchanged
                let fr2 := { fr with labels := fr.labels ++ [(⟨.ifKind, fr.pc, nextPc⟩ : Label)] }
                .ok (withTopFrame { s with valueStack := vs } fr2)
              else
                match nextElseOrEndAddr (fr.pc + 1) fr.insts with
                | .error e => .trap e
                | .ok addr =>
                    let fr2 := { fr with pc := addr, labels := fr.labels ++ [(⟨.ifKind, addr, nextPc⟩ : Label)] }
                    .ok (withTopFrame { s with valueStack := vs } fr2)
  | .opElse =>
      let fr := s.frameStack.getLastD dummyFrame
      match fr.labels.getLast? with
      | none => .trap .noLabelElse
      | some lab =>
          .ok (withTopFrame s { fr with labels := fr.labels.dropLast, pc := lab.endPc })
  | .opEnd =>
      let fr := s.frameStack.getLastD dummyFrame
      match fr.labels.getLast? with
      | none => .ok { s with frameStack := s.frameStack.dropLast }
      | some lab =>
          .ok (withTopFrame s { fr with labels := fr.labels.dropLast, pc := lab.endPc })
  | .opBr level =>
      let fr := s.frameStack.getLastD dummyFrame
      match brTarget fr.labels level with
      | .err e => .trap e
      | .panics => .runtimePanic
      | .ok pc2 => .ok (withTopFrame s { fr with pc := pc2 })
  | .opBrIf level =>
      let (cond, vs) := vpop s.valueStack
      let fr := s.frameStack.getLastD dummyFrame
      match cond.Bool? with
      | none => .runtimePanic
      | some cb =>
          if cb then
            match brTarget fr.labels level with
            | .err e => .trap e
            | .panics => .runtimePanic
            | .ok pc2 => .ok (withTopFrame { s with valueStack := vs } { fr with pc := pc2 })
          else
            .ok (withTopFrame { s with valueStack := vs } { fr with pc := fr.pc + 1 })
  | .opBrTable arr default =>
      let (idxValue, vs) := vpop s.valueStack
      let fr := s.frameStack.getLastD dummyFrame
      let idx : Int := idxValue.I32
      -- Go: `if idx < len(arr) { level = arr[idx] }` — a negative idx enters
      -- the branch and panics on the negative index.
      if idx < (arr.length : Int) then
        if h : 0 ≤ idx ∧ idx.toNat < arr.length then
          match brTarget fr.labels (arr.get ⟨idx.toNat, h.2⟩) with
          | .err e => .trap e
          | .panics => .runtimePanic
          | .ok pc2 => .ok (withTopFrame { s with valueStack := vs } { fr with pc := pc2 })
        else .runtimePanic
      else
        match brTarget fr.labels default with
        | .err e => .trap e
        | .panics => .runtimePanic
        | .ok pc2 => .ok (withTopFrame { s with valueStack := vs } { fr with pc := pc2 })
  | .opReturn =>
      -- `opReturn.exec` is an empty stub returning nil.
      .ok s
  | .opCall => .ok s
  | .opCallIndirect => .ok s
  | .opLocalGet i =>
      let fr := s.frameStack.getLastD dummyFrame
      if h : fr.sp + i < s.valueStack.length then
        let v := s.valueStack.get ⟨fr.sp + i, h⟩
        .ok (withTopFrame { s with valueStack := s.valueStack ++ [v] } { fr with pc := fr.pc + 1 })
      else .trap (.localNotFound i)
  | .opLocalSet i =>
      let fr := s.frameStack.getLastD dummyFrame
      let (v, vs) := vpop s.valueStack
      if fr.sp + i < vs.length then
        .ok (withTopFrame { s with valueStack := vs.set (fr.sp + i) v } { fr with pc := fr.pc + 1 })
      else .runtimePanic
  | .opLocalTee i =>
      let fr := s.frameStack.getLastD dummyFrame
      let v := s.valueStack.getLastD zeroValue
      if fr.sp + i < s.valueStack.length then
        .ok (withTopFrame { s with valueStack := s.valueStack.set (fr.sp + i) v } { fr with pc := fr.pc + 1 })
      else .runtimePanic
  | .opGlobalGet i =>
      let fr := s.frameStack.getLastD dummyFrame
      if h : i < s.mod.globalAddrs.length then
        let ga := s.mod.globalAddrs.get ⟨i, h⟩
        if h2 : ga < s.store.globals.length then
          let g := s.store.globals.get ⟨ga, h2⟩
          .ok (withTopFrame { s with valueStack := s.valueStack ++ [g.value] } { fr with pc := fr.pc + 1 })
        else .runtimePanic
      else .runtimePanic
  | .opGlobalSet i =>
      let fr := s.frameStack.getLastD dummyFrame
      if h : i < s.mod.globalAddrs.length then
        let ga := s.mod.globalAddrs.get ⟨i, h⟩
        if h2 : ga < s.store.globals.length then
          let g := s.store.globals.get ⟨ga, h2⟩
          if g.globalType.mutab = constMut then .trap (.immutableGlobal i)
          else
            let v := s.valueStack.getLastD zeroValue
            if g.globalType.valueType ≠ v.valType then .trap (.globalTypeMismatch i)
            else
              -- `global := store.globals[globalAddr]` copies the element by
              -- value; `global.value = *v` mutates only the copy, so the
              -- store is unchanged.  The operand is only `Top()`ed, not popped.
              .ok (withTopFrame s { fr with pc := fr.pc + 1 })
        else .runtimePanic
      else .runtimePanic
  | .opConst v =>
      let fr := s.frameStack.getLastD dummyFrame
      .ok (withTopFrame { s with valueStack := s.valueStack ++ [v] } { fr with pc := fr.pc + 1 })
  | .opTest f =>
      let (v, vs) := vpop s.valueStack
      let fr := s.frameStack.getLastD dummyFrame
      .ok (withTopFrame { s with valueStack := vs ++ [numericBool (testFnEval f v)] } { fr with pc := fr.pc + 1 })
  | .opRel f =>
      let (a, vs1) := vpop s.valueStack
      let (b, vs2) := vpop vs1
      match relFnEval f with
      | none => .unmodeledFloat
      | some fn =>
          let fr := s.frameStack.getLastD dummyFrame
          .ok (withTopFrame { s with valueStack := vs2 ++ [numericBool (fn a b)] } { fr with pc := fr.pc + 1 })
  | .opBin f =>
      let (a, vs1) := vpop s.valueStack
      let (b, vs2) := vpop vs1
      match binFnEval f with
      | none => .unmodeledFloat
      | some fn =>
          match fn a b with
          | .error e => .trap e
          | .ok ret =>
              let fr := s.frameStack.getLastD dummyFrame
              .ok (withTopFrame { s with valueStack := vs2 ++ [ret] } { fr with pc := fr.pc + 1 })
  | .opUn f =>
      let (v, vs) := vpop s.valueStack
      match unFnEval f with
      | none => .unmodeledFloat
      | some fn =>
          let fr := s.frameStack.getLastD dummyFrame
          .ok (withTopFrame { s with valueStack := vs ++ [fn v] } { fr with pc := fr.pc + 1 })
  | .opLoad align offset f =>
      let fr := s.frameStack.getLastD dummyFrame
      withDefaultMem s fun _ mem =>
        let (baseAddr, vs) := vpop s.valueStack
        if baseAddr.I32 < 0 ∨ offset < 0 then .trap .outOfBoundsMemoryAccess
        else
          -- `addr := baseAddrI32 + o.offset` is int32 addition (wrapping)
          match loadFnEval f mem (wrap32 (baseAddr.I32 + offset)) align with
          | .error e => .trap e
          | .ok v =>
              .ok (withTopFrame { s with valueStack := vs ++ [v] } { fr with pc := fr.pc + 1 })
  | .opStore offset align f =>
      let fr := s.frameStack.getLastD dummyFrame
      withDefaultMem s fun _ mem =>
        -- `opStore.exec` pops a single value and uses it both as the base
        -- address and as the value to store; `storeFn` has no error result
        -- and (see `MemInst.store`) never modifies the backing bytes, so
        -- nothing can trap and the store is unchanged.
        let (value, vs) := vpop s.valueStack
        let _ := storeFnEval f mem (wrap32 (value.I32 + offset)) align value
        .ok (withTopFrame { s with valueStack := vs } { fr with pc := fr.pc + 1 })
  | .opMemorySize =>
      let fr := s.frameStack.getLastD dummyFrame
      withDefaultMem s fun _ mem =>
        -- `ValueFrom(int32(mem.size()), I32)`: the size in BYTES, wrapped to int32.
        .ok (withTopFrame { s with valueStack := s.valueStack ++ [ValueFromI32 (wrap32 (mem.size : Int))] } { fr with pc := fr.pc + 1 })
  | .opMemoryGrow =>
      let fr := s.frameStack.getLastD dummyFrame
      withDefaultMem s fun _ mem =>
        let (v, vs) := vpop s.valueStack
        let currentPages : Int := mem.pages
        -- `mem` is a by-value copy of the store's element, so the grown
        -- memory is dropped on the floor; and `ValueFrom` is called with a
        -- plain Go `int`, producing an empty payload (see `ValueFromGoInt`).
        match mem.grow v.I32 with
        | .error _ =>
            .ok (withTopFrame { s with valueStack := vs ++ [ValueFromGoInt I32 (-1)] } { fr with pc := fr.pc + 1 })
        | .ok _ =>
            .ok (withTopFrame { s with valueStack := vs ++ [ValueFromGoInt I32 currentPages] } { fr with pc := fr.pc + 1 })
  | .opMemoryCopy =>
      let (lenV, vs1) := vpop s.valueStack
      let (srcV, vs2) := vpop vs1
      let (dstV, vs3) := vpop vs2
      let fr := s.frameStack.getLastD dummyFrame
      withDefaultMem s fun a mem =>
        let d := dstV.I32
        let sc := srcV.I32
        let l := lenV.I32
        let sz : Int := mem.data.length
        -- Go `copy(mem.data[dst:], mem.data[src:src+len])`: slicing panics on
        -- any out-of-range bound; `copy` writes through the shared backing
        -- array (the one memory operation that actually mutates), copying
        -- `min(size-dst, len)` bytes as if through a scratch buffer.
        if d < 0 ∨ d > sz ∨ sc < 0 ∨ l < 0 ∨ sc + l > sz then .runtimePanic
        else
          let n := min (sz - d).toNat l.toNat
          let newData := (mem.data.take d.toNat) ++ ((mem.data.drop sc.toNat).take n) ++ mem.data.drop (d.toNat + n)
          let st2 := { s.store with mems := s.store.mems.set a { mem with data := newData } }
          .ok (withTopFrame { s with valueStack := vs3, store := st2 } { fr with pc := fr.pc + 1 })
  | .opMemoryFill =>
      -- `opMemoryFill.exec` is an empty stub: no pops, no write, no NextStep.
      .ok s
  | .opSelect =>
      let fr := s.frameStack.getLastD dummyFrame
      let (c, vs1) := vpop s.valueStack
      let (v1, vs2) := vpop vs1
      let (v2, vs3) := vpop vs2
      .ok (withTopFrame { s with valueStack := vs3 ++ [if c.I32 = 0 then v1 else v2] } { fr with pc := fr.pc + 1 })
  | .opDrop =>
      let fr := s.frameStack.getLastD dummyFrame
      .ok (withTopFrame { s with valueStack := s.valueStack.dropLast } { fr with pc := fr.pc + 1 })

/-- One iteration of `Interpreter.Execute`'s dispatch loop: fetch
`frame.insts[frame.pc]` (a panic when `pc` is out of range, and a
nil-dereference panic when the decoded slot holds no instruction) and run its
`exec`. -/
def step (s : State) : StepResult :=
  match s.frameStack.getLast? with
  | none => .ok s
  | some fr =>
      if h : fr.pc < fr.insts.length then
        match fr.insts.get ⟨fr.pc, h⟩ with
        | none => .runtimePanic
        | some i => execInstr i s
      else .runtimePanic

inductive RunResult
  | done (s : State)
  | trap (e : Err)
  | panicked
  | unmodeled
  | fuelOut (s : State)
  deriving Repr, DecidableEq

/-- Go `Interpreter.Execute`: loop while the frame stack is non-empty.  The Go
loop has no fuel; `fuelOut` marks exhaustion of the fuel bound only. -/
def run : Nat → State → RunResult
  | 0, s => .fuelOut s
  | n + 1, s =>
      if s.frameStack.isEmpty then .done s
      else
        match step s with
        | .ok s' => run n s'
        | .trap e => .trap e
        | .runtimePanic => .panicked
        | .unmodeledFloat => .unmodeled

/-! ## LEB128 reader (src/reader.go).

The Go reader is a cursor `(bytes, pos)`; it is represented here by the
remaining byte suffix `bytes[pos:]`. -/

structure Reader where
  bytes : List Nat
  deriving Repr, DecidableEq

/-- Decode errors surfaced by the reader/parser.  The reader's only error is
`io.EOF`. -/
inductive PErr
  | eof
  /-- `fmt.Errorf("unknown memory copy or fill kind: %d", kind)`. -/
  | unknownMemKind (kind : Nat)
  deriving Repr, DecidableEq

/-- Go `eatU8`. -/
def eatU8 (r : Reader) : Except PErr (Nat × Reader) :=
  match r.bytes with
  | [] => .error .eof
  | b :: rest => .ok (b, ⟨rest⟩)

/-- The loop of Go `eatU64`: `v |= (uint64(u8) & 0x7F) << shift` (a `uint64`
computation, hence the reduction modulo `2^64`), terminating when
`u8&0x80>>7 == 0` (Go `&` and `>>` share precedence and associate left, so
this is `(u8 & 0x80) >> 7`). -/
def eatU64Aux (shift acc : Nat) : List Nat → Except PErr (Nat × List Nat)
  | [] => .error .eof
  | b :: rest =>
      let acc2 := acc ||| (((b &&& 0x7F) <<< shift) % 2^64)
      if (b &&& 0x80) >>> 7 = 0 then .ok (acc2, rest)
      else eatU64Aux (shift + 7) acc2 rest

def eatU64 (r : Reader) : Except PErr (Nat × Reader) :=
  (eatU64Aux 0 0 r.bytes).map fun p => (p.1, ⟨p.2⟩)

/-- The loop of Go `eatI64`, producing the 64-bit pattern of the `int64`
accumulator.  After the accumulate, `shift += 7`; on a terminating byte with
bit 6 set (`u8&0x40>>3 != 0`, i.e. `(u8 & 0x40) >> 3 ≠ 0`), the source ors in
`^0 << shift`: the 64-bit pattern of `-1 << shift`, which is `2^64 - 2^shift`
for `shift < 64` and `0` once the shift reaches the word width. -/
def eatI64Aux (shift acc : Nat) : List Nat → Except PErr (Nat × List Nat)
  | [] => .error .eof
  | b :: rest =>
      let acc2 := acc ||| (((b &&& 0x7F) <<< shift) % 2^64)
      let shift2 := shift + 7
      if (b &&& 0x80) >>> 7 = 0 then
        if (b &&& 0x40) >>> 3 ≠ 0 then
          .ok (acc2 ||| (if shift2 < 64 then 2^64 - 2^shift2 else 0), rest)
        else .ok (acc2, rest)
      else eatI64Aux shift2 acc2 rest

def eatI64 (r : Reader) : Except PErr (Int × Reader) :=
  (eatI64Aux 0 0 r.bytes).map fun p => (toSigned 64 p.1, ⟨p.2⟩)

/-- Go `eatU32`: `uint32(v)` of the `eatU64` result. -/
def eatU32 (r : Reader) : Except PErr (Nat × Reader) :=
  (eatU64 r).map fun p => (p.1 % 2^32, p.2)

/-- Go `eatI32`: `int32(v)` of the `eatI64` result. -/
def eatI32 (r : Reader) : Except PErr (Int × Reader) :=
  (eatI64 r).map fun p => (wrap32 p.1, p.2)

/-! ## Instruction decoding (src/parser.go, `parser.instr` and helpers) -/

/-- Go `parser.eatBlock`: block-type byte `0x40` is the empty block type,
anything else is a single value type. -/
def eatBlock (r : Reader) : Except PErr (Block × Reader) :=
  (eatU8 r).map fun p => (if p.1 = 0x40 then ⟨0, []⟩ else ⟨1, [p.1]⟩, p.2)

/-- Go `parser.memoryArgs`: `align` then `offset`, both read with `eatI32`
(signed, as in the source). -/
def memoryArgs (r : Reader) : Except PErr (Int × Int × Reader) :=
  match eatI32 r with
  | .error e => .error e
  | .ok (align, r1) =>
      match eatI32 r1 with
      | .error e => .error e
      | .ok (offset, r2) => .ok (align, offset, r2)

/-- The two `p.r.eatU32()` calls in the `0xFC` case discard both the value
and the error; on EOF the Go cursor ends up at the end of the buffer. -/
def eatU32Discard (r : Reader) : Reader :=
  match eatU32 r with
  | .ok (_, r2) => r2
  | .error _ => ⟨[]⟩

/-- Go `parser.instr`: decode one instruction, returning the optional
instruction (Go returns a possibly-nil interface value), the `isEnd` flag, and
the advanced reader.  A `switch` case with an empty body — and an opcode
matched by no case at all — leaves `i` nil and returns no error. -/
def pInstr (r : Reader) : Except PErr (Option Instr × Bool × Reader) :=
  match eatU8 r with
  | .error e => .error e
  | .ok (op, r1) =>
      match op with
      | 0x00 => .ok (some .opUnreachable, false, r1)
      | 0x01 => .ok (some .opNop, false, r1)
      | 0x02 => (eatBlock r1).map fun p => (some (.opBlock p.1), false, p.2)
      | 0x03 => (eatBlock r1).map fun p => (some (.opLoop p.1), false, p.2)
      | 0x04 => (eatBlock r1).map fun p => (some (.opIf p.1), false, p.2)
      | 0x05 => .ok (some .opElse, false, r1)
      | 0x0B => .ok (some .opEnd, true, r1)
      -- `case opCodeBr: / opCodeBrIf: / opCodeBrTable:` are empty bodies:
      -- no immediate is consumed and the nil instruction is kept.
      | 0x0C | 0x0D | 0x0E => .ok (none, false, r1)
      | 0x20 => (eatU32 r1).map fun p => (some (.opLocalGet p.1), false, p.2)
      | 0x21 => (eatU32 r1).map fun p => (some (.opLocalSet p.1), false, p.2)
      -- `case opCodeLocalTee: / opCodeGlobalGet: / opCodeGlobalSet:
      --  / opCodeCall: / opCodeCallIndirect:` are empty bodies.
      | 0x22 | 0x23 | 0x24 | 0x10 | 0x11 => .ok (none, false, r1)
      | 0x41 => (eatI32 r1).map fun p => (some (.opConst (ValueFromI32 p.1)), false, p.2)
      | 0x45 => .ok (some (.opTest .i32Eqz), false, r1)
      | 0x46 => .ok (some (.opRel .i32Eq), false, r1)
      | 0x47 => .ok (some (.opRel .i32Ne), false, r1)
      | 0x48 => .ok (some (.opRel .i32LtS), false, r1)
      | 0x49 => .ok (some (.opRel .i32LtU), false, r1)
      | 0x4A => .ok (some (.opRel .i32GtS), false, r1)
      | 0x4B => .ok (some (.opRel .i32GtU), false, r1)
      | 0x4C => .ok (some (.opRel .i32LeS), false, r1)
      | 0x4D => .ok (some (.opRel .i32LeU), false, r1)
      | 0x4E => .ok (some (.opRel .i32GeS), false, r1)
      | 0x4F => .ok (some (.opRel .i32GeU), false, r1)
      | 0x6A => .ok (some (.opBin .i32Add), false, r1)
      | 0x6B => .ok (some (.opBin .i32Sub), false, r1)
      | 0x6C => .ok (some (.opBin .i32Mul), false, r1)
      | 0x67 => .ok (some (.opUn .i32Clz), false, r1)
      | 0x68 => .ok (some (.opUn .i32Ctz), false, r1)
      | 0x69 => .ok (some (.opUn .i32Popcnt), false, r1)
      | 0x6D => .ok (some (.opBin .i32DivS), false, r1)
      | 0x6E => .ok (some (.opBin .i32DivU), false, r1)
      | 0x6F => .ok (some (.opBin .i32RemS), false, r1)
      | 0x70 => .ok (some (.opBin .i32RemU), false, r1)
      | 0x71 => .ok (some (.opBin .i32And), false, r1)
      | 0x72 => .ok (some (.opBin .i32Or), false, r1)
      | 0x73 => .ok (some (.opBin .i32Xor), false, r1)
      | 0x74 => .ok (some (.opBin .i32Shl), false, r1)
      | 0x75 => .ok (some (.opBin .i32ShrS), false, r1)
      | 0x76 => .ok (some (.opBin .i32ShrU), false, r1)
      | 0x77 => .ok (some (.opBin .i32RotL), false, r1)
      | 0x78 => .ok (some (.opBin .i32RotR), false, r1)
      | 0xC0 => .ok (some (.opUn .i32Extend8S), false, r1)
      | 0xC1 => .ok (some (.opUn .i32Extend16S), false, r1)
      | 0x42 => (eatI64 r1).map fun p => (some (.opConst (ValueFromI64 p.1)), false, p.2)
      | 0x50 => .ok (some (.opTest .i64Eqz), false, r1)
      | 0x51 => .ok (some (.opRel .i64Eq), false, r1)
      | 0x52 => .ok (some (.opRel .i64Ne), false, r1)
      | 0x53 => .ok (some (.opRel .i64LtS), false, r1)
      | 0x54 => .ok (some (.opRel .i64LtU), false, r1)
      | 0x55 => .ok (some (.opRel .i64GtS), false, r1)
      | 0x56 => .ok (some (.opRel .i64GtU), false, r1)
      | 0x57 => .ok (some (.opRel .i64LeS), false, r1)
      | 0x58 => .ok (some (.opRel .i64LeU), false, r1)
      | 0x59 => .ok (some (.opRel .i64GeS), false, r1)
      | 0x5A => .ok (some (.opRel .i64GeU), false, r1)
      | 0x79 => .ok (some (.opUn .i64Clz), false, r1)
      | 0x7A => .ok (some (.opUn .i64Ctz), false, r1)
      | 0x7B => .ok (some (.opUn .i64Popcnt), false, r1)
      | 0x7C => .ok (some (.opBin .i64Add), false, r1)
      | 0x7D => .ok (some (.opBin .i64Sub), false, r1)
      | 0x7E => .ok (some (.opBin .i64Mul), false, r1)
      | 0x7F => .ok (some (.opBin .i64DivS), false, r1)
      | 0x80 => .ok (some (.opBin .i64DivU), false, r1)
      | 0x81 => .ok (some (.opBin .i64RemS), false, r1)
      | 0x82 => .ok (some (.opBin .i64RemU), false, r1)
      | 0x83 => .ok (some (.opBin .i64And), false, r1)
      | 0x84 => .ok (some (.opBin .i64Or), false, r1)
      | 0x85 => .ok (some (.opBin .i64Xor), false, r1)
      | 0x86 => .ok (some (.opBin .i64Shl), false, r1)
      | 0x87 => .ok (some (.opBin .i64ShrS), false, r1)
      | 0x88 => .ok (some (.opBin .i64ShrU), false, r1)
      | 0x89 => .ok (some (.opBin .i64RotL), false, r1)
      | 0x8A => .ok (some (.opBin .i64RotR), false, r1)
      | 0xC2 => .ok (some (.opUn .i64Extend8S), false, r1)
      | 0xC3 => .ok (some (.opUn .i64Extend16S), false, r1)
      | 0xC4 => .ok (some (.opUn .i64Extend32S), false, r1)
      -- `case opCodeF32Const: / opCodeF64Const:` are empty bodies.
      | 0x43 | 0x44 => .ok (none, false, r1)
      | 0x5B => .ok (some (.opRel .f32Eq), false, r1)
      | 0x5C => .ok (some (.opRel .f32Ne), false, r1)
      | 0x5D => .ok (some (.opRel .f32Lt), false, r1)
      | 0x5E => .ok (some (.opRel .f32Gt), false, r1)
      | 0x5F => .ok (some (.opRel .f32Le), false, r1)
      | 0x60 => .ok (some (.opRel .f32Ge), false, r1)
      | 0x8B => .ok (some (.opUn .f32Abs), false, r1)
      | 0x8C => .ok (some (.opUn .f32Neg), false, r1)
      | 0x8D => .ok (some (.opUn .f32Ceil), false, r1)
      | 0x8E => .ok (some (.opUn .f32Floor), false, r1)
      | 0x8F => .ok (some (.opUn .f32Trunc), false, r1)
      | 0x90 => .ok (some (.opUn .f32Nearest), false, r1)
      | 0x91 => .ok (some (.opUn .f32Sqrt), false, r1)
      | 0x92 => .ok (some (.opBin .f32Add), false, r1)
      | 0x93 => .ok (some (.opBin .f32Sub), false, r1)
      | 0x94 => .ok (some (.opBin .f32Mul), false, r1)
      | 0x95 => .ok (some (.opBin .f32Div), false, r1)
      | 0x96 => .ok (some (.opBin .f32Min), false, r1)
      | 0x97 => .ok (some (.opBin .f32Max), false, r1)
      | 0x99 => .ok (some (.opUn .f64Abs), false, r1)
      | 0x9A => .ok (some (.opUn .f64Neg), false, r1)
      | 0x9B => .ok (some (.opUn .f64Ceil), false, r1)
      | 0x9C => .ok (some (.opUn .f64Floor), false, r1)
      | 0x9D => .ok (some (.opUn .f64Trunc), false, r1)
      | 0x9E => .ok (some (.opUn .f64Nearest), false, r1)
      | 0x9F => .ok (some (.opUn .f64Sqrt), false, r1)
      | 0xA0 => .ok (some (.opBin .f64Add), false, r1)
      | 0xA1 => .ok (some (.opBin .f64Sub), false, r1)
      | 0xA2 => .ok (some (.opBin .f64Mul), false, r1)
      | 0xA3 => .ok (some (.opBin .f64Div), false, r1)
      | 0xA4 => .ok (some (.opBin .f64Min), false, r1)
      | 0xA5 => .ok (some (.opBin .f64Max), false, r1)
      | 0xA6 => .ok (some (.opBin .f64Copysign), false, r1)
      -- `case opCodeI32WrapI64:` is an empty body.
      | 0xA7 => .ok (none, false, r1)
      | 0x61 => .ok (some (.opRel .f64Eq), false, r1)
      | 0x62 => .ok (some (.opRel .f64Ne), false, r1)
      | 0x63 => .ok (some (.opRel .f64Lt), false, r1)
      | 0x64 => .ok (some (.opRel .f64Gt), false, r1)
      | 0x65 => .ok (some (.opRel .f64Le), false, r1)
      | 0x66 => .ok (some (.opRel .f64Ge), false, r1)
      | 0x98 => .ok (some (.opBin .f32Copysign), false, r1)
      | 0x0F => .ok (some .opReturn, false, r1)
      | 0x28 => (memoryArgs r1).map fun p => (some (.opLoad p.1 p.2.1 .i32load), false, p.2.2)
      | 0x29 => (memoryArgs r1).map fun p => (some (.opLoad p.1 p.2.1 .i64load), false, p.2.2)
      | 0x2A => (memoryArgs r1).map fun p => (some (.opLoad p.1 p.2.1 .f32load), false, p.2.2)
      | 0x2B => (memoryArgs r1).map fun p => (some (.opLoad p.1 p.2.1 .f64load), false, p.2.2)
      | 0x2C => (memoryArgs r1).map fun p => (some (.opLoad p.1 p.2.1 .i32load8S), false, p.2.2)
      | 0x2D => (memoryArgs r1).map fun p => (some (.opLoad p.1 p.2.1 .i32load8U), false, p.2.2)
      | 0x2E => (memoryArgs r1).map fun p => (some (.opLoad p.1 p.2.1 .i32load16S), false, p.2.2)
      | 0x2F => (memoryArgs r1).map fun p => (some (.opLoad p.1 p.2.1 .i32load16U), false, p.2.2)
      | 0x30 => (memoryArgs r1).map fun p => (some (.opLoad p.1 p.2.1 .i64Load8S), false, p.2.2)
      | 0x31 => (memoryArgs r1).map fun p => (some (.opLoad p.1 p.2.1 .i64Load8U), false, p.2.2)
      | 0x32 => (memoryArgs r1).map fun p => (some (.opLoad p.1 p.2.1 .i64load16S), false, p.2.2)
      | 0x33 => (memoryArgs r1).map fun p => (some (.opLoad p.1 p.2.1 .i64load16U), false, p.2.2)
      | 0x34 => (memoryArgs r1).map fun p => (some (.opLoad p.1 p.2.1 .i64load32S), false, p.2.2)
      | 0x35 => (memoryArgs r1).map fun p => (some (.opLoad p.1 p.2.1 .i64load32U), false, p.2.2)
      | 0x36 => (memoryArgs r1).map fun p => (some (.opStore p.2.1 p.1 .i32store), false, p.2.2)
      | 0x37 => (memoryArgs r1).map fun p => (some (.opStore p.2.1 p.1 .i64store), false, p.2.2)
      | 0x38 => (memoryArgs r1).map fun p => (some (.opStore p.2.1 p.1 .f32store), false, p.2.2)
      | 0x39 => (memoryArgs r1).map fun p => (some (.opStore p.2.1 p.1 .f64store), false, p.2.2)
      | 0x3A => (memoryArgs r1).map fun p => (some (.opStore p.2.1 p.1 .i32store8), false, p.2.2)
      | 0x3B => (memoryArgs r1).map fun p => (some (.opStore p.2.1 p.1 .i32store16), false, p.2.2)
      | 0x3C => (memoryArgs r1).map fun p => (some (.opStore p.2.1 p.1 .i64store8), false, p.2.2)
      | 0x3D => (memoryArgs r1).map fun p => (some (.opStore p.2.1 p.1 .i64store16), false, p.2.2)
      | 0x3E => (memoryArgs r1).map fun p => (some (.opStore p.2.1 p.1 .i64store32), false, p.2.2)
      | 0x3F => .ok (some .opMemorySize, false, r1)
      | 0x40 => .ok (some .opMemoryGrow, false, r1)
      | 0xFC =>
          match eatU8 r1 with
          | .error e => .error e
          | .ok (kind, r2) =>
              if kind = 10 then .ok (some .opMemoryCopy, false, eatU32Discard (eatU32Discard r2))
              else if kind = 11 then .ok (some .opMemoryFill, false, eatU32Discard r2)
              else .error (.unknownMemKind kind)
      | 0x1B => .ok (some .opSelect, false, r1)
      | 0x1A => .ok (some .opDrop, false, r1)
      -- The conversion opcodes 0xA8..0xBF all have empty case bodies, and an
      -- opcode matched by no case also leaves the nil instruction.
      | _ => .ok (none, false, r1)

/-- The loop of Go `parser.expr`: decode instructions (appending each decoded
value, nil included) until one reports `isEnd`.  Each iteration consumes at
least one byte, so the fuel `length + 1` never runs out on the recursive
path. -/
def pExprAux : Nat → Reader → List (Option Instr) → Except PErr (List (Option Instr) × Reader)
  | 0, _, _ => .error .eof
  | fuel + 1, r, acc =>
      match pInstr r with
      | .error e => .error e
      | .ok (i, isEnd, r2) =>
          if isEnd then .ok (acc ++ [i], r2)
          else pExprAux fuel r2 (acc ++ [i])

def pExpr (r : Reader) : Except PErr (List (Option Instr) × Reader) :=
  pExprAux (r.bytes.length + 1) r []


deriving instance DecidableEq for Except

/-! ## Generic facts about the dispatch loop -/

theorem run_step (n : Nat) (s s2 : State) (h : s.frameStack.isEmpty = false)
    (hs : step s = .ok s2) : run (n + 1) s = run n s2 := by
  simp [run, h, hs]

theorem run_done_succ (n : Nat) (s : State) (h : s.frameStack.isEmpty = true) :
    run (n + 1) s = .done s := by
  simp [run, h]

/-! ## Arithmetic support lemmas for truncated division/remainder -/

theorem neg_tmod_left (a b : Int) : Int.tmod (-a) b = -(Int.tmod a b) := by
  rw [Int.tmod_def, Int.tmod_def, Int.neg_tdiv]
  ring

theorem tmod_lt_natAbs (a b : Int) (hb : b ≠ 0) :
    -((b.natAbs : Nat) : Int) < Int.tmod a b ∧ Int.tmod a b < ((b.natAbs : Nat) : Int) := by
  have habs : (0:Int) < ((b.natAbs : Nat) : Int) := by omega
  have hmn : ∀ x : Int, Int.tmod x ((b.natAbs : Nat) : Int) = Int.tmod x b := by
    intro x
    rcases le_or_lt 0 b with hb0 | hb0
    · have h : (((b.natAbs : Nat)) : Int) = b := by omega
      rw [h]
    · have h : (((b.natAbs : Nat)) : Int) = -b := by omega
      rw [h, Int.tmod_neg]
  rcases le_or_lt 0 a with ha | ha
  · have h1 := Int.tmod_nonneg (((b.natAbs : Nat)) : Int) ha
    have h2 := Int.tmod_lt_of_pos a habs
    rw [hmn a] at h1 h2
    constructor <;> omega
  · have hneg : Int.tmod (-a) b = -(Int.tmod a b) := neg_tmod_left a b
    have h1 := @Int.tmod_nonneg (-a) (((b.natAbs : Nat)) : Int) (by omega)
    have h2 := Int.tmod_lt_of_pos (-a) habs
    rw [hmn (-a), hneg] at h1 h2
    constructor <;> omega

theorem tdiv_range32 (a b : Int)
    (ha1 : -((2:Int)^31) ≤ a) (ha2 : a < (2:Int)^31)
    (hb : b ≠ 0) (hnm : ¬(a = -((2:Int)^31) ∧ b = -1)) :
    -((2:Int)^31) ≤ Int.tdiv a b ∧ Int.tdiv a b < (2:Int)^31 := by
  have habs : (Int.tdiv a b).natAbs = a.natAbs / b.natAbs := Int.natAbs_tdiv a b
  have hle : a.natAbs / b.natAbs ≤ a.natAbs := Nat.div_le_self _ _
  have haA : a.natAbs ≤ 2^31 := by omega
  by_cases hq : (Int.tdiv a b).natAbs < 2^31
  · omega
  · have h1 : (Int.tdiv a b).natAbs = 2^31 := by omega
    have h2 : a.natAbs = 2^31 := by omega
    have ha : a = -((2:Int)^31) := by omega
    have hbA : b.natAbs = 1 := by
      by_contra hb2
      have : a.natAbs / b.natAbs < a.natAbs := Nat.div_lt_self (by omega) (by omega)
      omega
    have hb1 : b = 1 ∨ b = -1 := by omega
    rcases hb1 with hb1 | hb1
    · subst hb1
      rw [Int.tdiv_one] at h1 ⊢
      omega
    · exact absurd ⟨ha, hb1⟩ hnm

theorem tmod_range32 (a b : Int)
    (hb1 : -((2:Int)^31) ≤ b) (hb2 : b < (2:Int)^31) (hb : b ≠ 0) :
    -((2:Int)^31) ≤ Int.tmod a b ∧ Int.tmod a b < (2:Int)^31 := by
  have h := tmod_lt_natAbs a b hb
  omega

theorem tdiv_range64 (a b : Int)
    (ha1 : -((2:Int)^63) ≤ a) (ha2 : a < (2:Int)^63)
    (hb : b ≠ 0) (hnm : ¬(a = -((2:Int)^63) ∧ b = -1)) :
    -((2:Int)^63) ≤ Int.tdiv a b ∧ Int.tdiv a b < (2:Int)^63 := by
  have habs : (Int.tdiv a b).natAbs = a.natAbs / b.natAbs := Int.natAbs_tdiv a b
  have hle : a.natAbs / b.natAbs ≤ a.natAbs := Nat.div_le_self _ _
  have haA : a.natAbs ≤ 2^63 := by omega
  by_cases hq : (Int.tdiv a b).natAbs < 2^63
  · omega
  · have h1 : (Int.tdiv a b).natAbs = 2^63 := by omega
    have h2 : a.natAbs = 2^63 := by omega
    have ha : a = -((2:Int)^63) := by omega
    have hbA : b.natAbs = 1 := by
      by_contra hb2
      have : a.natAbs / b.natAbs < a.natAbs := Nat.div_lt_self (by omega) (by omega)
      omega
    have hb1 : b = 1 ∨ b = -1 := by omega
    rcases hb1 with hb1 | hb1
    · subst hb1
      rw [Int.tdiv_one] at h1 ⊢
      omega
    · exact absurd ⟨ha, hb1⟩ hnm

theorem tmod_range64 (a b : Int)
    (hb1 : -((2:Int)^63) ≤ b) (hb2 : b < (2:Int)^63) (hb : b ≠ 0) :
    -((2:Int)^63) ≤ Int.tmod a b ∧ Int.tmod a b < (2:Int)^63 := by
  have h := tmod_lt_natAbs a b hb
  omega

/-! ## Support lemmas for the LEB128 decoder -/

theorem and128_shift_eq_zero_iff (b : Nat) : (b &&& 0x80) >>> 7 = 0 ↔ b &&& 0x80 = 0 := by
  have h : b &&& 0x80 = (b.testBit 7).toNat * 2^7 := by
    have := Nat.and_two_pow b 7
    norm_num at this ⊢
    omega
  rcases hb : b.testBit 7 <;> simp [hb] at h <;> simp [h]

theorem eatU64Aux_eof_iff (shift acc : Nat) (bs : List Nat) :
    (eatU64Aux shift acc bs = .error .eof) ↔ ∀ b ∈ bs, b &&& 0x80 ≠ 0 := by
  induction bs generalizing shift acc with
  | nil => simp [eatU64Aux]
  | cons b rest ih =>
      simp only [eatU64Aux]
      by_cases h : (b &&& 0x80) >>> 7 = 0
      · have hb : b &&& 0x80 = 0 := (and128_shift_eq_zero_iff b).mp h
        simp [h, hb]
      · have hb : b &&& 0x80 ≠ 0 := fun hc => h ((and128_shift_eq_zero_iff b).mpr hc)
        simp [h, ih, hb]

theorem eatI64Aux_eof_iff (shift acc : Nat) (bs : List Nat) :
    (eatI64Aux shift acc bs = .error .eof) ↔ ∀ b ∈ bs, b &&& 0x80 ≠ 0 := by
  induction bs generalizing shift acc with
  | nil => simp [eatI64Aux]
  | cons b rest ih =>
      simp only [eatI64Aux]
      by_cases h : (b &&& 0x80) >>> 7 = 0
      · have hb : b &&& 0x80 = 0 := (and128_shift_eq_zero_iff b).mp h
        by_cases h6 : (b &&& 0x40) >>> 3 ≠ 0 <;> simp [h, h6, hb]
      · have hb : b &&& 0x80 ≠ 0 := fun hc => h ((and128_shift_eq_zero_iff b).mpr hc)
        simp [h, ih, hb]

/-! ## Shared concrete fixtures -/

/-- A module instance whose only memory address is 0, as the instance builder
produces for a single-memory module. -/
def testModInst : ModuleInst := ⟨[0], []⟩

/-- A directly constructed 4-byte zeroed memory ("a memory of at least 4
bytes"). -/
def testMem4 : MemInst := ⟨⟨⟨1, -1⟩⟩, [0, 0, 0, 0]⟩


/-! ## Claim C1 -/

def c1Body : List (Option Instr) :=
  [some (.opConst (ValueFromI32 0)), some (.opConst (ValueFromI32 0x01020304)),
   some (.opStore 0 2 .i32store), some (.opConst (ValueFromI32 0)),
   some (.opLoad 0 0 .i32load8U), some (.opConst (ValueFromI32 3)),
   some (.opLoad 0 0 .i32load8U), some .opEnd]

def c1State : State := ⟨[⟨0, 0, c1Body, []⟩], [], ⟨[testMem4], []⟩, testModInst⟩

def c1Final : State :=
  ⟨[], [ValueFromI32 0, ValueFromI32 0, ValueFromI32 0], ⟨[testMem4], []⟩, testModInst⟩

/-- C1: the claim says that after `i32.store` with base operand 0 and value
`0x01020304`, `i32.load8_u` at address 0 yields 4 and at address 3 yields 1.
On the code this fails: `opStore.exec` pops a single operand (so the value
`0x01020304` doubles as the base address), and the `store32` accessor writes
through a `bytes.Buffer` that reallocates, never touching the backing array.
Running the claim's instruction sequence on a zeroed 4-byte memory leaves the
memory bytes unchanged and both `i32.load8_u` results are 0 (not 4 and 1),
with no trap reported. -/
theorem c1_store_then_load8_reads_zero :
    run 20 c1State = .done c1Final
    ∧ c1Final.valueStack.map Value.I32 = [0, 0, 0]
    ∧ c1Final.store.mems = [testMem4]
    ∧ ((0 : Int) ≠ 4 ∧ (0 : Int) ≠ 1) := by
  decide

/-! ## Claim C3 -/

def c3NopState : State :=
  ⟨[⟨0, 0, [some .opNop, some .opEnd], []⟩], [], ⟨[], []⟩, testModInst⟩

def c3IfBody : List (Option Instr) :=
  [some (.opIf ⟨0, []⟩), some .opEnd]

def c3IfState : State := ⟨[⟨0, 0, c3IfBody, []⟩], [ValueFromI32 1], ⟨[], []⟩, testModInst⟩

def c3IfAfter : State := ⟨[⟨0, 0, c3IfBody, [⟨.ifKind, 0, 1⟩]⟩], [], ⟨[], []⟩, testModInst⟩

/-- C3: the claim says every successful step advances pc by one, jumps, or
pops the frame — in particular that `nop` advances pc and that `if` with a
non-zero condition advances into the then-branch.  On the code this fails:
`opNop.exec` returns without calling `NextStep`, so the step leaves the state
completely unchanged (pc still 0) and the dispatch loop re-executes the same
`nop` forever (any amount of fuel is exhausted on the unchanged state); and
`opIf.exec` with a true condition pushes its label but also leaves pc at 0. -/
theorem c3_nop_and_if_leave_pc_unchanged :
    step c3NopState = .ok c3NopState
    ∧ (∀ n, run n c3NopState = .fuelOut c3NopState)
    ∧ step c3IfState = .ok c3IfAfter
    ∧ c3IfAfter.frameStack.map Frame.pc = [0]
    ∧ c3IfState.frameStack.map Frame.pc = [0] := by
  refine ⟨by decide, ?_, by decide, by decide, by decide⟩
  intro n
  induction n with
  | zero => rfl
  | succ n ih =>
      have hstep : step c3NopState = .ok c3NopState := by decide
      simp only [run, hstep]
      rw [if_neg (by decide)]
      exact ih

/-! ## Claim C4 -/

def c4StoreBody : List (Option Instr) := [some (.opStore 0 2 .i32store), some .opEnd]

def c4StoreState : State :=
  ⟨[⟨0, 0, c4StoreBody, []⟩], [ValueFromI32 65536], ⟨[testMem4], []⟩, testModInst⟩

def c4StoreAfter : State :=
  ⟨[⟨1, 0, c4StoreBody, []⟩], [], ⟨[testMem4], []⟩, testModInst⟩

def c4LoadBody : List (Option Instr) := [some (.opLoad 0 0 .i32load), some .opEnd]

def c4LoadState : State :=
  ⟨[⟨0, 0, c4LoadBody, []⟩], [ValueFromI32 65536], ⟨[testMem4], []⟩, testModInst⟩

def c4LoadNegState : State :=
  ⟨[⟨0, 0, c4LoadBody, []⟩], [ValueFromI32 (-1)], ⟨[testMem4], []⟩, testModInst⟩

def c4ReadMem : MemInst := ⟨⟨⟨1, -1⟩⟩, [10, 11, 12, 13]⟩

def c4ReadBody : List (Option Instr) := [some (.opLoad 0 1 .i32load8U), some .opEnd]

def c4ReadState : State :=
  ⟨[⟨0, 0, c4ReadBody, []⟩], [ValueFromI32 2], ⟨[c4ReadMem], []⟩, testModInst⟩

def c4ReadAfter : State :=
  ⟨[⟨1, 0, c4ReadBody, []⟩], [ValueFromI32 13], ⟨[c4ReadMem], []⟩, testModInst⟩

/-- C4: the claim says every memory load AND store traps with
"out of bounds memory access" when the access is out of range.  The load half
holds (an `i32.load` whose effective address exceeds the 4-byte memory traps,
as does a negative base operand; an in-bounds `i32.load8_u` with base 2 and
static offset 1 reads the byte at address 3).  The store half fails: an
`i32.store` whose popped operand is 65536 — so the effective address 65536+4
exceeds the 4-byte memory — completes successfully (pc advances, no trap) and
the memory is unchanged; `opStore.exec` performs no bounds check and every
store helper discards the accessor's error. -/
theorem c4_loads_trap_stores_do_not :
    step c4StoreState = .ok c4StoreAfter
    ∧ c4StoreAfter.store = c4StoreState.store
    ∧ (∀ e, step c4StoreState ≠ .trap e)
    ∧ step c4LoadState = .trap .outOfBoundsMemoryAccess
    ∧ step c4LoadNegState = .trap .outOfBoundsMemoryAccess
    ∧ errMessage .outOfBoundsMemoryAccess = "out of bounds memory access"
    ∧ step c4ReadState = .ok c4ReadAfter
    ∧ (ValueFromI32 13).I32 = 13 := by
  refine ⟨by decide, by decide, ?_, by decide, by decide, by decide, by decide, by decide⟩
  intro e h
  have h2 : step c4StoreState = .ok c4StoreAfter := by decide
  rw [h2] at h
  exact StepResult.noConfusion h

/-! ## Claim C5 -/

def c5BrBody : List (Option Instr) := [some (.opBr 0)]

def c5BlockState : State :=
  ⟨[⟨0, 0, c5BrBody, [⟨.blockKind, 0, 5⟩]⟩], [], ⟨[], []⟩, testModInst⟩

def c5BlockAfter : State :=
  ⟨[⟨5, 0, c5BrBody, [⟨.blockKind, 0, 5⟩]⟩], [], ⟨[], []⟩, testModInst⟩

def c5LoopState : State :=
  ⟨[⟨0, 0, c5BrBody, [⟨.loopKind, 2, 7⟩]⟩], [], ⟨[], []⟩, testModInst⟩

def c5LoopAfter : State :=
  ⟨[⟨2, 0, c5BrBody, [⟨.loopKind, 2, 7⟩]⟩], [], ⟨[], []⟩, testModInst⟩

def c5TwoBody : List (Option Instr) := [some (.opBr 1)]

def c5TwoState : State :=
  ⟨[⟨0, 0, c5TwoBody, [⟨.blockKind, 0, 9⟩, ⟨.blockKind, 1, 5⟩]⟩], [], ⟨[], []⟩, testModInst⟩

def c5TwoAfter : State :=
  ⟨[⟨9, 0, c5TwoBody, [⟨.blockKind, 0, 9⟩, ⟨.blockKind, 1, 5⟩]⟩], [], ⟨[], []⟩, testModInst⟩

/-- C5: the claim says `br L` resolves the L-th label from the top, jumps to
startPc for a loop label and endPc otherwise, AND pops all labels at depth at
most L.  The resolution and jump targets hold (block label with endPc 5: pc
becomes 5; loop label with startPc 2: pc becomes 2; `br 1` over two labels
resolves the deeper one, endPc 9).  The popping fails: `br` only `Peek`s the
label stack, which is identical after every one of these steps (e.g. still
one label where the claim requires zero). -/
theorem c5_br_jumps_but_pops_no_labels :
    step c5BlockState = .ok c5BlockAfter
    ∧ step c5LoopState = .ok c5LoopAfter
    ∧ step c5TwoState = .ok c5TwoAfter
    ∧ c5BlockAfter.frameStack.map Frame.labels = [[⟨.blockKind, 0, 5⟩]]
    ∧ c5LoopAfter.frameStack.map Frame.labels = [[⟨.loopKind, 2, 7⟩]]
    ∧ c5TwoAfter.frameStack.map Frame.labels = [[⟨.blockKind, 0, 9⟩, ⟨.blockKind, 1, 5⟩]] := by
  decide

/-! ## Claim C6 -/

def c6Global : GlobalInst := ⟨⟨I32, varMut⟩, ValueFromI32 7⟩

def c6Body : List (Option Instr) :=
  [some (.opGlobalSet 0), some (.opGlobalGet 0), some .opEnd]

def c6State : State := ⟨[⟨0, 0, c6Body, []⟩], [ValueFromI32 42], ⟨[], [c6Global]⟩, ⟨[], [0]⟩⟩

def c6Final : State :=
  ⟨[], [ValueFromI32 42, ValueFromI32 7], ⟨[], [c6Global]⟩, ⟨[], [0]⟩⟩

def c6SetBody : List (Option Instr) := [some (.opGlobalSet 0)]

def c6ConstState : State :=
  ⟨[⟨0, 0, c6SetBody, []⟩], [ValueFromI32 42],
   ⟨[], [⟨⟨I32, constMut⟩, ValueFromI32 7⟩]⟩, ⟨[], [0]⟩⟩

def c6MismatchState : State :=
  ⟨[⟨0, 0, c6SetBody, []⟩], [ValueFromI32 42],
   ⟨[], [⟨⟨I64, varMut⟩, ValueFromI64 7⟩]⟩, ⟨[], [0]⟩⟩

/-- C6: the claim says `global.set 0` writes the top operand (42) into the
store's global so that a following `global.get 0` pushes 42.  The two error
paths do hold: on a `const` global the step traps with the immutable-global
error, and on a tag mismatch (i32 operand against an i64 global) with the
type-mismatch error.  The write itself fails: `opGlobalSet.exec` assigns into
a by-value copy of the slice element, so after `global.set 0; global.get 0`
the store still holds the old value 7 and the get pushes 7, not 42 (the
operand 42 is also never popped, only `Top()`ed). -/
theorem c6_global_set_write_is_lost :
    run 20 c6State = .done c6Final
    ∧ c6Final.valueStack.map Value.I32 = [42, 7]
    ∧ c6Final.store.globals = [c6Global]
    ∧ step c6ConstState = .trap (.immutableGlobal 0)
    ∧ step c6MismatchState = .trap (.globalTypeMismatch 0)
    ∧ ((7 : Int) ≠ 42) := by
  decide


/-! ## Claim C2 -/

/-- A memory instance with `min = 1` page and declared `max = 3` pages over
the byte array `d` (the instance builder allocates `d = 65536` zero bytes for
`min = 1`). -/
def c2Mem (d : List Nat) : MemInst := ⟨⟨⟨1, 3⟩⟩, d⟩

/-- The claim's instruction sequence: push `k`, `memory.grow`, `memory.size`;
`k = 2` for the in-bounds grow, `k = 100` for the grow past `max`. -/
def c2Body (k : Int) : List (Option Instr) :=
  [some (.opConst (ValueFromI32 k)), some .opMemoryGrow, some .opMemorySize, some .opEnd]

def c2State (k : Int) (d : List Nat) : State :=
  ⟨[⟨0, 0, c2Body k, []⟩], [], ⟨[c2Mem d], []⟩, testModInst⟩

def c2Final (d : List Nat) : State :=
  ⟨[], [⟨I32, []⟩, ValueFromI32 65536], ⟨[c2Mem d], []⟩, testModInst⟩

theorem c2RunAux (k : Int) (d : List Nat) (hd : d.length = 65536) :
    run 20 (c2State k d) = .done (c2Final d) := by
  have h1 : step (c2State k d) =
      .ok ⟨[⟨1, 0, c2Body k, []⟩], [ValueFromI32 k], ⟨[c2Mem d], []⟩, testModInst⟩ := rfl
  have h2 : step ⟨[⟨1, 0, c2Body k, []⟩], [ValueFromI32 k], ⟨[c2Mem d], []⟩, testModInst⟩ =
      .ok ⟨[⟨2, 0, c2Body k, []⟩], [⟨I32, []⟩], ⟨[c2Mem d], []⟩, testModInst⟩ := by
    simp only [step, execInstr, withDefaultMem, vpop, withTopFrame, updTop, ValueFromGoInt,
      c2Body, testModInst]
    simp
    split <;> rfl
  have h3 : step ⟨[⟨2, 0, c2Body k, []⟩], [⟨I32, []⟩], ⟨[c2Mem d], []⟩, testModInst⟩ =
      .ok ⟨[⟨3, 0, c2Body k, []⟩], [⟨I32, []⟩, ValueFromI32 65536],
            ⟨[c2Mem d], []⟩, testModInst⟩ := by
    have hw : wrap32 (65536 : Int) = 65536 := by decide
    simp [step, execInstr, withDefaultMem, MemInst.size, hd, c2Body, c2Mem,
      withTopFrame, updTop, hw, testModInst]
  have h4 : step ⟨[⟨3, 0, c2Body k, []⟩], [⟨I32, []⟩, ValueFromI32 65536],
      ⟨[c2Mem d], []⟩, testModInst⟩ = .ok (c2Final d) := rfl
  calc run 20 (c2State k d)
      = run 19 _ := run_step 19 _ _ rfl h1
    _ = run 18 _ := run_step 18 _ _ rfl h2
    _ = run 17 _ := run_step 17 _ _ rfl h3
    _ = run 16 (c2Final d) := run_step 16 _ _ rfl h4
    _ = .done (c2Final d) := run_done_succ 15 _ rfl

/-- C2: the claim says that on a `min = 1` memory, `memory.grow 2` pushes 1
(the pre-grow page count), a following `memory.size` pushes 3, and a grow
past `max` pushes -1 leaving the size unchanged.  On the code all three
pushed values are wrong, though the size is indeed unchanged: `memory.grow`
pushes its result through `ValueFrom` applied to a plain Go `int`, which
`binary.Write` rejects, so the pushed value has an empty payload and reads
back as 0 via `I32()` (never 1, never -1); `memory.size` pushes the byte
length 65536, not the page count 3; and the grow itself mutates only a
by-value copy of the store's `memInst`, so the store's memory (and hence the
final size) is the untouched 65536-byte array both for `grow 2` (which is
within `max = 3`) and for `grow 100` (which exceeds it). -/
theorem c2_memory_grow_and_size_mismatch :
    run 20 (c2State 2 (List.replicate 65536 0)) = .done (c2Final (List.replicate 65536 0))
    ∧ run 20 (c2State 100 (List.replicate 65536 0)) = .done (c2Final (List.replicate 65536 0))
    ∧ (c2Final (List.replicate 65536 0)).valueStack.map Value.I32 = [0, 65536]
    ∧ (c2Final (List.replicate 65536 0)).store = (c2State 2 (List.replicate 65536 0)).store
    ∧ ((0 : Int) ≠ 1 ∧ (0 : Int) ≠ -1 ∧ (65536 : Int) ≠ 3) := by
  have hd : (List.replicate 65536 (0:Nat)).length = 65536 := by
    simp only [List.length_replicate]
  refine ⟨c2RunAux 2 _ hd, c2RunAux 100 _ hd, ?_, rfl, by decide, by decide, by decide⟩
  show [(⟨I32, []⟩ : Value).I32, (ValueFromI32 65536).I32] = [0, 65536]
  decide


/-! ## Claim C7 -/

/-- C7: the integer division/remainder contract.  `div_s`, `div_u`, `rem_s`
and `rem_u` (for both widths) return the "integer divide by zero" trap exactly
when the divisor operand is 0; `div_s` of the minimum value and -1 traps with
"integer overflow" while `rem_s` of the same pair returns 0 without trapping;
and whenever the divisor is non-zero and `div_s` is defined, the truncated
quotient and remainder satisfy `q * b + r = a`. -/
theorem c7_div_rem_contract (va vb wa wb : Value)
    (hb32 : vb.I32 ≠ 0) (hnm32 : ¬(va.I32 = -((2:Int)^31) ∧ vb.I32 = -1))
    (hb64 : wb.I64 ≠ 0) (hnm64 : ¬(wa.I64 = -((2:Int)^63) ∧ wb.I64 = -1)) :
    (∀ x y : Value,
      (i32DivS x y = .error .integerDivideByZero ↔ y.I32 = 0)
      ∧ (i32DivU x y = .error .integerDivideByZero ↔ y.I32 = 0)
      ∧ (i32RemS x y = .error .integerDivideByZero ↔ y.I32 = 0)
      ∧ (i32RemU x y = .error .integerDivideByZero ↔ y.I32 = 0)
      ∧ (i64DivS x y = .error .integerDivideByZero ↔ y.I64 = 0)
      ∧ (i64DivU x y = .error .integerDivideByZero ↔ y.I64 = 0)
      ∧ (i64RemS x y = .error .integerDivideByZero ↔ y.I64 = 0)
      ∧ (i64RemU x y = .error .integerDivideByZero ↔ y.I64 = 0))
    ∧ errMessage .integerDivideByZero = "integer divide by zero"
    ∧ errMessage .integerOverflow = "integer overflow"
    ∧ i32DivS (ValueFromI32 (-((2:Int)^31))) (ValueFromI32 (-1)) = .error .integerOverflow
    ∧ i32RemS (ValueFromI32 (-((2:Int)^31))) (ValueFromI32 (-1)) = .ok (ValueFromI32 0)
    ∧ i64DivS (ValueFromI64 (-((2:Int)^63))) (ValueFromI64 (-1)) = .error .integerOverflow
    ∧ i64RemS (ValueFromI64 (-((2:Int)^63))) (ValueFromI64 (-1)) = .ok (ValueFromI64 0)
    ∧ (∃ q r, i32DivS va vb = .ok q ∧ i32RemS va vb = .ok r
        ∧ q.I32 * vb.I32 + r.I32 = va.I32)
    ∧ (∃ q r, i64DivS wa wb = .ok q ∧ i64RemS wa wb = .ok r
        ∧ q.I64 * wb.I64 + r.I64 = wa.I64) := by
  refine ⟨?_, by decide, by decide, by decide, by decide, by decide, by decide, ?_, ?_⟩
  · intro x y
    refine ⟨?_, ?_, ?_, ?_, ?_, ?_, ?_, ?_⟩ <;>
      · simp only [i32DivS, i32DivU, i32RemS, i32RemU, i64DivS, i64DivU, i64RemS, i64RemU]
        split <;> simp_all <;> split <;> simp_all
  · obtain ⟨hq1, hq2⟩ := tdiv_range32 va.I32 vb.I32 (Value.I32_range va).1
      (Value.I32_range va).2 hb32 hnm32
    obtain ⟨hr1, hr2⟩ := tmod_range32 va.I32 vb.I32 (Value.I32_range vb).1
      (Value.I32_range vb).2 hb32
    refine ⟨ValueFromI32 (Int.tdiv va.I32 vb.I32), ValueFromI32 (Int.tmod va.I32 vb.I32),
      ?_, ?_, ?_⟩
    · simp [i32DivS, hb32]
      intro h1 h2
      exact hnm32 ⟨by rw [h1]; norm_num, h2⟩
    · simp [i32RemS, hb32]
    · rw [ValueFromI32_I32, ValueFromI32_I32, wrap32_of_range _ hq1 hq2,
        wrap32_of_range _ hr1 hr2, Int.mul_comm]
      exact Int.tdiv_add_tmod va.I32 vb.I32
  · obtain ⟨hq1, hq2⟩ := tdiv_range64 wa.I64 wb.I64 (Value.I64_range wa).1
      (Value.I64_range wa).2 hb64 hnm64
    obtain ⟨hr1, hr2⟩ := tmod_range64 wa.I64 wb.I64 (Value.I64_range wb).1
      (Value.I64_range wb).2 hb64
    refine ⟨ValueFromI64 (Int.tdiv wa.I64 wb.I64), ValueFromI64 (Int.tmod wa.I64 wb.I64),
      ?_, ?_, ?_⟩
    · simp [i64DivS, hb64]
      intro h1 h2
      exact hnm64 ⟨by rw [h1]; norm_num, h2⟩
    · simp [i64RemS, hb64]
    · rw [ValueFromI64_I64, ValueFromI64_I64, wrap64_of_range _ hq1 hq2,
        wrap64_of_range _ hr1 hr2, Int.mul_comm]
      exact Int.tdiv_add_tmod wa.I64 wb.I64

/-- C7 witness: the contract instantiated at `a = 7`, `b = -2` for both
widths (`7 tdiv -2 = -3`, `7 tmod -2 = 1`, and `(-3) * (-2) + 1 = 7`). -/
theorem c7_div_rem_contract_witness :
    (ValueFromI32 (-2)).I32 ≠ 0
    ∧ ¬((ValueFromI32 7).I32 = -((2:Int)^31) ∧ (ValueFromI32 (-2)).I32 = -1)
    ∧ (ValueFromI64 (-2)).I64 ≠ 0
    ∧ ¬((ValueFromI64 7).I64 = -((2:Int)^63) ∧ (ValueFromI64 (-2)).I64 = -1)
    ∧ (∃ q r, i32DivS (ValueFromI32 7) (ValueFromI32 (-2)) = .ok q
        ∧ i32RemS (ValueFromI32 7) (ValueFromI32 (-2)) = .ok r
        ∧ q.I32 * (ValueFromI32 (-2)).I32 + r.I32 = (ValueFromI32 7).I32) := by
  refine ⟨by decide, by decide, by decide, by decide, ?_⟩
  exact (c7_div_rem_contract (ValueFromI32 7) (ValueFromI32 (-2))
    (ValueFromI64 7) (ValueFromI64 (-2))
    (by decide) (by decide) (by decide) (by decide)).2.2.2.2.2.2.2.1


/-! ## Claim C8 -/

/-- The standard export pattern the conformance suite uses for binary
operators: `local.get 0; local.get 1; i32.shl; end`. -/
def c8Body : List (Option Instr) :=
  [some (.opLocalGet 0), some (.opLocalGet 1), some (.opBin .i32Shl), some .opEnd]

/-- Invoking the shl function with arguments `[1, k]`: `GetFunc`'s invoker
records `sp = 0` and pushes the arguments in reverse order, so the stack is
`[k, 1]` (bottom first). -/
def c8State (k : Int) : State :=
  ⟨[⟨0, 0, c8Body, []⟩], [ValueFromI32 k, ValueFromI32 1], ⟨[], []⟩, testModInst⟩

def c8Final (k res : Int) : State :=
  ⟨[], [ValueFromI32 k, ValueFromI32 1, ValueFromI32 res], ⟨[], []⟩, testModInst⟩

/-- C8: shift instructions mask the shift amount modulo the bit width.  The
shift amount in `i32Shl`/`i64Shl` is taken modulo 32/64 (so two shift operands
congruent modulo the width produce identical results), and evaluating
`(1 i32.shl 32)` — both as the bare binary function and end-to-end through the
interpreter on the conformance-suite's `local.get 0; local.get 1; i32.shl`
body with arguments (1, 32) — yields 1, while `(1 i32.shl 33)` yields 2. -/
theorem c8_shifts_mask_the_amount (va vb vb2 wa wb wb2 : Value)
    (h32 : toUnsigned 32 vb.I32 % 32 = toUnsigned 32 vb2.I32 % 32)
    (h64 : toUnsigned 64 wb.I64 % 64 = toUnsigned 64 wb2.I64 % 64) :
    i32Shl va vb = i32Shl va vb2
    ∧ i64Shl wa wb = i64Shl wa wb2
    ∧ i32Shl (ValueFromI32 1) (ValueFromI32 32) = .ok (ValueFromI32 1)
    ∧ i32Shl (ValueFromI32 1) (ValueFromI32 33) = .ok (ValueFromI32 2)
    ∧ run 20 (c8State 32) = .done (c8Final 32 1)
    ∧ (c8Final 32 1).valueStack.getLast? = some (ValueFromI32 1)
    ∧ run 20 (c8State 33) = .done (c8Final 33 2)
    ∧ (c8Final 33 2).valueStack.getLast? = some (ValueFromI32 2) := by
  refine ⟨?_, ?_, by decide, by decide, by decide, by decide, by decide, by decide⟩
  · simp [i32Shl, h32]
  · simp [i64Shl, h64]

/-- C8 witness: the masking equality instantiated with shift operands 32 and
0 (both reduce to 0 modulo 32), and 64 and 0 for the 64-bit case. -/
theorem c8_shifts_mask_the_amount_witness :
    toUnsigned 32 (ValueFromI32 32).I32 % 32 = toUnsigned 32 (ValueFromI32 0).I32 % 32
    ∧ toUnsigned 64 (ValueFromI64 64).I64 % 64 = toUnsigned 64 (ValueFromI64 0).I64 % 64
    ∧ i32Shl (ValueFromI32 1) (ValueFromI32 32) = i32Shl (ValueFromI32 1) (ValueFromI32 0) := by
  refine ⟨by decide, by decide, ?_⟩
  exact (c8_shifts_mask_the_amount (ValueFromI32 1) (ValueFromI32 32) (ValueFromI32 0)
    (ValueFromI64 1) (ValueFromI64 64) (ValueFromI64 0) (by decide) (by decide)).1

/-! ## Claim C9 -/

/-- C9: the LEB128 decoders.  `eatU64` concatenates the low 7 bits of each
byte in little-endian group order until a byte with a clear high bit, so
`[0x80, 0x01]` decodes to `0x80` (and, for reference, `[0xFF, 0xFF, 0x03]` to
`0xFFFF`); the signed decoder sign-fills the bits above the accumulated
position when bit 6 of the terminating byte is set, so `[0x7F]` decodes to
`-1` and `[0x40]` to `-0x40`; and both decoders return `Eof` exactly when
every remaining byte has its high bit set, i.e. when the encoding runs past
the end of the buffer without a terminating byte. -/
theorem c9_leb128_decoding :
    eatU64 ⟨[0x80, 0x01]⟩ = .ok (0x80, ⟨[]⟩)
    ∧ eatU64 ⟨[0xFF, 0xFF, 0x03]⟩ = .ok (0xFFFF, ⟨[]⟩)
    ∧ eatI64 ⟨[0x7F]⟩ = .ok (-1, ⟨[]⟩)
    ∧ eatI64 ⟨[0x40]⟩ = .ok (-0x40, ⟨[]⟩)
    ∧ (∀ bs : List Nat, (eatU64 ⟨bs⟩ = .error .eof ↔ ∀ b ∈ bs, b &&& 0x80 ≠ 0))
    ∧ (∀ bs : List Nat, (eatI64 ⟨bs⟩ = .error .eof ↔ ∀ b ∈ bs, b &&& 0x80 ≠ 0)) := by
  refine ⟨by decide, by decide, by decide, by decide, ?_, ?_⟩
  · intro bs
    rw [← eatU64Aux_eof_iff 0 0 bs]
    cases hx : eatU64Aux 0 0 bs with
    | error e => cases e <;> simp [eatU64, hx, Except.map]
    | ok p => simp [eatU64, hx, Except.map]
  · intro bs
    rw [← eatI64Aux_eof_iff 0 0 bs]
    cases hx : eatI64Aux 0 0 bs with
    | error e => cases e <;> simp [eatI64, hx, Except.map]
    | ok p => simp [eatI64, hx, Except.map]

/-! ## Claim C10 -/

/-- The opcodes whose `parser.instr` case bodies are empty: br, br_if,
br_table, local.tee, global.get, global.set, call, call_indirect, f32.const,
f64.const, i32.wrap_i64, and the conversion opcodes 0xA8 through 0xBF. -/
def stubOpcodes : List Nat :=
  [0x0C, 0x0D, 0x0E, 0x22, 0x23, 0x24, 0x10, 0x11, 0x43, 0x44, 0xA7,
   0xA8, 0xA9, 0xAA, 0xAB, 0xAC, 0xAD, 0xAE, 0xAF, 0xB0, 0xB1, 0xB2, 0xB3,
   0xB4, 0xB5, 0xB6, 0xB7, 0xB8, 0xB9, 0xBA, 0xBB, 0xBC, 0xBD, 0xBE, 0xBF]

/-- A frame whose current instruction slot holds the nil instruction the
decoder left behind. -/
def c10NilState : State := ⟨[⟨0, 0, [none], []⟩], [], ⟨[], []⟩, ⟨[], []⟩⟩

/-- C10: for every stub opcode, `parser.instr` succeeds without consuming
anything further and yields the nil instruction (Go's nil interface value),
`parser.expr` places that nil slot into the decoded body (so building the
module reports no decode error), and the dispatch loop's
`instr.exec` call on the nil slot is a nil-pointer panic — a distinct outcome
from every returned trap error. -/
theorem c10_stub_opcodes_decode_to_nil_and_panic (op : Nat) (hop : op ∈ stubOpcodes) :
    pInstr ⟨[op]⟩ = .ok (none, false, ⟨[]⟩)
    ∧ pExpr ⟨[op, 0x0B]⟩ = .ok ([none, some .opEnd], ⟨[]⟩)
    ∧ step c10NilState = .runtimePanic
    ∧ (∀ e : Err, (StepResult.runtimePanic : StepResult) ≠ .trap e) := by
  fin_cases hop <;>
    exact ⟨by decide, by decide, by decide, fun e h => StepResult.noConfusion h⟩

/-- C10 witness: the br opcode 0x0C is one of the stub opcodes, and decoding
it succeeds with the nil instruction. -/
theorem c10_stub_opcodes_decode_to_nil_and_panic_witness :
    (0x0C ∈ stubOpcodes)
    ∧ pInstr ⟨[0x0C]⟩ = .ok (none, false, ⟨[]⟩) := by
  refine ⟨by decide, ?_⟩
  exact (c10_stub_opcodes_decode_to_nil_and_panic 0x0C (by decide)).1

end WasmGo
